import Mathlib

/-!
# ErikBus: client-side marshalling layer

A shallow embedding of `src/src/bus.c` and of the accessor generators of
`src/include/erikbus.h`.

* Signed 64-bit integers (`int64_t`) are `Int`, unsigned ones (`uint64_t`,
  `size_t`) are `Nat`; the two conversions C performs between them are
  `to_uint64` and `to_int64`.
* Pointers are `Nat`, `NULL` is `0`.
* Everything outside the translation unit (`_syscall`, `malloc`, `free`, the
  memory `strlen` reads) is an `Env`: a state type with the operations on it.
  The embedded functions thread a `World`, the state of the environment
  together with the log of the external calls issued so far.
-/

namespace ErikBus

/-! ## Data model (`erikbus.h`) -/

/-- The operation tags of the boundary call, `enum syscall_type`. -/
inductive syscall_type
  | SYSCALL_EXIT
  | SYSCALL_METHOD
  | SYSCALL_SIGNAL
  | SYSCALL_TARGETED_SIGNAL
  | SYSCALL_PUSH
  | SYSCALL_PEEK
  | SYSCALL_POP
  deriving DecidableEq

/-- The parameter tags, `enum syscall_param_type`. -/
inductive syscall_param_type
  | SYSCALL_PARAM_ARRAY
  | SYSCALL_PARAM_PRIMITIVE
  deriving DecidableEq

/-- The record of a method request, `struct syscall_method_data`: three
`uint64_t` fields. -/
structure syscall_method_data where
  pid : Nat
  interface : Nat
  method : Nat
  deriving DecidableEq

/-- A parameter, `struct syscall_param`. The anonymous union of `uint64_t value`
and `void *array` is one 64-bit slot, the field `value`; `array` reads the same
slot as a pointer. -/
structure syscall_param where
  type : syscall_param_type
  size : Nat
  value : Nat
  deriving DecidableEq

/-- The union member `array` of `struct syscall_param`. -/
def syscall_param.array (p : syscall_param) : Nat := p.value

/-- Conversion `int64_t → uint64_t` (reduction modulo `2^64`), as performed by
the initialisers `.value = value` and `{ service, 0, 0 }`. -/
def to_uint64 (v : Int) : Nat := (v % 2 ^ 64).toNat

/-- Conversion `uint64_t → int64_t` (two's complement), as performed by
`*value = p.value`. -/
def to_int64 (u : Nat) : Int :=
  if u % 2 ^ 64 < 2 ^ 63 then ((u % 2 ^ 64 : Nat) : Int) else ((u % 2 ^ 64 : Nat) : Int) - 2 ^ 64

/-! ## The environment -/

/-- What a boundary call is handed through its `void *data`. -/
inductive Payload
  | method (m : syscall_method_data)
  | param (p : syscall_param)
  deriving DecidableEq

/-- One call that leaves the translation unit: a boundary call with the payload
as it was passed and the status it returned, an allocation with the size asked
for and the pointer obtained, or a release. -/
inductive Event
  | syscall (type : syscall_type) (data : Payload) (ret : Int)
  | malloc (size : Nat) (ptr : Nat)
  | free (ptr : Nat)
  deriving DecidableEq

/-- The external collaborators of `bus.c`, over a state `σ` of everything beyond
the translation unit (far side of the boundary, heap).

* `load s p`: the bytes of memory readable from pointer `p` on.
* `sys_method m s`: `_syscall(SYSCALL_METHOD, &m)`; status and new state.
* `sys_param t p s`: `_syscall(t, &p)` for a parameter payload; status, the
  parameter as the far side left it, new state.
* `malloc n s`: pointer obtained (`0` on failure) and new state.
* `free p s`: new state. -/
structure Env (σ : Type) where
  load : σ → Nat → List Nat
  sys_method : syscall_method_data → σ → Int × σ
  sys_param : syscall_type → syscall_param → σ → Int × syscall_param × σ
  malloc : Nat → σ → Nat × σ
  free : Nat → σ → σ

/-- The state threaded through the embedded functions: the environment's state
and the log of external calls, oldest first. -/
structure World (σ : Type) where
  env : σ
  trace : List Event

/-- The libc `strlen`: the number of bytes before the first zero byte. -/
def strlen {σ : Type} (E : Env σ) (w : World σ) (str : Nat) : Nat :=
  ((E.load w.env str).takeWhile (fun b => b != 0)).length

/-- The boundary call `_syscall(type, &p)` on a parameter: returns the status
and the parameter as left by the far side. -/
def _syscall {σ : Type} (E : Env σ) (type : syscall_type) (p : syscall_param)
    (w : World σ) : Int × syscall_param × World σ :=
  let r := E.sys_param type p w.env
  (r.1, r.2.1, ⟨r.2.2, w.trace ++ [Event.syscall type (Payload.param p) r.1]⟩)

/-- The boundary call `_syscall(SYSCALL_METHOD, &m)`. -/
def _syscall_METHOD {σ : Type} (E : Env σ) (m : syscall_method_data)
    (w : World σ) : Int × World σ :=
  let r := E.sys_method m w.env
  (r.1, ⟨r.2, w.trace ++ [Event.syscall syscall_type.SYSCALL_METHOD (Payload.method m) r.1]⟩)

/-- The libc `malloc`, logged. -/
def malloc {σ : Type} (E : Env σ) (size : Nat) (w : World σ) : Nat × World σ :=
  let r := E.malloc size w.env
  (r.1, ⟨r.2, w.trace ++ [Event.malloc size r.1]⟩)

/-- The libc `free`, logged. -/
def free {σ : Type} (E : Env σ) (ptr : Nat) (w : World σ) : World σ :=
  ⟨E.free ptr w.env, w.trace ++ [Event.free ptr]⟩

/-! ## Identifier resolver (`bus.c`) -/

open syscall_type syscall_param_type

/-- `int64_t _syscall_service(char *name)`. -/
def _syscall_service {σ : Type} (E : Env σ) (name : Nat) (w : World σ) : Int × World σ :=
  let m : syscall_method_data := ⟨0, 1, 0⟩
  let p : syscall_param := ⟨SYSCALL_PARAM_ARRAY, strlen E w name, name⟩
  let r := _syscall E SYSCALL_PUSH p w
  _syscall_METHOD E m r.2.2

/-- `int64_t _syscall_interface(int64_t service, char *name)`. -/
def _syscall_interface {σ : Type} (E : Env σ) (service : Int) (name : Nat)
    (w : World σ) : Int × World σ :=
  let m : syscall_method_data := ⟨to_uint64 service, 0, 0⟩
  let p : syscall_param := ⟨SYSCALL_PARAM_ARRAY, strlen E w name, name⟩
  let r := _syscall E SYSCALL_PUSH p w
  _syscall_METHOD E m r.2.2

/-- `int64_t _syscall_method(int64_t service, int64_t interface, char *name)`.
Both parameters are initialised (so `strlen(name)` is taken) before the first
boundary call. -/
def _syscall_method {σ : Type} (E : Env σ) (service : Int) (interface : Int) (name : Nat)
    (w : World σ) : Int × World σ :=
  let m : syscall_method_data := ⟨to_uint64 service, 0, 1⟩
  let p1 : syscall_param := ⟨SYSCALL_PARAM_PRIMITIVE, 0, to_uint64 interface⟩
  let p2 : syscall_param := ⟨SYSCALL_PARAM_ARRAY, strlen E w name, name⟩
  let r1 := _syscall E SYSCALL_PUSH p1 w
  let r2 := _syscall E SYSCALL_PUSH p2 r1.2.2
  _syscall_METHOD E m r2.2.2

/-! ## Parameter codec (`bus.c`) -/

/-- `int64_t _syscall_push_string(char *str)`. -/
def _syscall_push_string {σ : Type} (E : Env σ) (str : Nat) (w : World σ) : Int × World σ :=
  let p : syscall_param := ⟨SYSCALL_PARAM_ARRAY, strlen E w str, str⟩
  let r := _syscall E SYSCALL_PUSH p w
  (r.1, r.2.2)

/-- `int64_t _syscall_push_int(int64_t value)`. -/
def _syscall_push_int {σ : Type} (E : Env σ) (value : Int) (w : World σ) : Int × World σ :=
  let p : syscall_param := ⟨SYSCALL_PARAM_PRIMITIVE, 0, to_uint64 value⟩
  let r := _syscall E SYSCALL_PUSH p w
  (r.1, r.2.2)

/-- `int64_t _syscall_pop_string(char **str)`. The argument `str` is the value
of `*str` before the call; the result is the status, the value of `*str` after
the call, and the new world. -/
def _syscall_pop_string {σ : Type} (E : Env σ) (str : Nat) (w : World σ) :
    Int × Nat × World σ :=
  let p : syscall_param := ⟨SYSCALL_PARAM_ARRAY, 0, 0⟩
  let r := _syscall E SYSCALL_PEEK p w
  if r.1 < 0 then (r.1, str, r.2.2)
  else if r.2.1.type ≠ SYSCALL_PARAM_ARRAY then (-1, str, r.2.2)
  else
    let a := malloc E r.2.1.size r.2.2
    if a.1 = 0 then (-1, a.1, a.2)
    else
      let p' : syscall_param := { r.2.1 with value := a.1 }
      let r' := _syscall E SYSCALL_POP p' a.2
      if r'.1 < 0 then (r'.1, 0, free E a.1 r'.2.2)
      else (r'.1, a.1, r'.2.2)

/-- `int64_t _syscall_pop_int(int64_t *value)`. The argument `value` is the
value of `*value` before the call; the result is the status, the value of
`*value` after the call, and the new world. -/
def _syscall_pop_int {σ : Type} (E : Env σ) (value : Int) (w : World σ) :
    Int × Int × World σ :=
  let p : syscall_param := ⟨SYSCALL_PARAM_PRIMITIVE, 0, 0⟩
  let r := _syscall E SYSCALL_PEEK p w
  if r.1 < 0 then (r.1, value, r.2.2)
  else if r.2.1.type ≠ SYSCALL_PARAM_PRIMITIVE then (-1, value, r.2.2)
  else
    let r' := _syscall E SYSCALL_POP r.2.1 r.2.2
    (r'.1, to_int64 r'.2.1.value, r'.2.2)

/-! ## Accessor generators (`erikbus.h`) -/

/-- The function-local `static int64_t` cells of the generated accessors of one
service, one of its interfaces and one method of that interface. -/
structure Statics where
  service : Int
  interface : Int
  method : Int
  deriving DecidableEq

/-- The initialiser `= -1` of every cell. -/
def Statics.init : Statics := ⟨-1, -1, -1⟩

/-- `DEFINE_SERVICE(ident, name)`: the body of `bus_service_ident`; `name` is
the pointer to the string literal. -/
def bus_service {σ : Type} (E : Env σ) (name : Nat) (c : Statics) (w : World σ) :
    Int × Statics × World σ :=
  if c.service = -1 then
    let r := _syscall_service E name w
    (r.1, { c with service := r.1 }, r.2)
  else (c.service, c, w)

/-- `DEFINE_INTERFACE(service, ident, name)`: the body of
`bus_interface_service_ident`; `sname` is the name given to the service's
`DEFINE_SERVICE`. -/
def bus_interface {σ : Type} (E : Env σ) (sname name : Nat) (c : Statics) (w : World σ) :
    Int × Statics × World σ :=
  if c.interface = -1 then
    let s := bus_service E sname c w
    let r := _syscall_interface E s.1 name s.2.2
    (r.1, { s.2.1 with interface := r.1 }, r.2)
  else (c.interface, c, w)

/-- The order in which the two nested accessor calls of a method accessor
take place. They are arguments of one call, `_syscall_method(bus_service_S(),
bus_interface_S_I(), name)`, so C leaves the order to the compiler: each call
runs to completion, the service accessor first or the interface accessor
first. -/
inductive ArgOrder
  | service_first
  | interface_first
  deriving DecidableEq

/-- `DEFINE_METHOD(service, interface, ident, name, ...)`: the body of
`bus_method_service_interface_ident`, for either order of the two nested
accessor calls. -/
def bus_method {σ : Type} (E : Env σ) (o : ArgOrder) (sname iname name : Nat) (c : Statics)
    (w : World σ) : Int × Statics × World σ :=
  if c.method = -1 then
    match o with
    | ArgOrder.service_first =>
      let s := bus_service E sname c w
      let i := bus_interface E sname iname s.2.1 s.2.2
      let r := _syscall_method E s.1 i.1 name i.2.2
      (r.1, { i.2.1 with method := r.1 }, r.2)
    | ArgOrder.interface_first =>
      let i := bus_interface E sname iname c w
      let s := bus_service E sname i.2.1 i.2.2
      let r := _syscall_method E s.1 i.1 name s.2.2
      (r.1, { s.2.1 with method := r.1 }, r.2)
  else (c.method, c, w)

/-- A parameter held by the loop-back queue. -/
inductive Item
  | primitive (value : Nat)
  | array (bytes : List Nat)
  deriving DecidableEq

/-- State of the loop-back environment: the queue of pending parameters
(head first), the objects in memory (pointer and bytes, latest write first) and
the last pointer handed out by the allocator. -/
structure Loopback where
  queue : List Item
  heap : List (Nat × List Nat)
  last : Nat
  deriving DecidableEq

/-- The bytes of the object at `p` (none if there is no object). -/
def Loopback.load (s : Loopback) (p : Nat) : List Nat :=
  match s.heap.lookup p with
  | some bs => bs
  | none => []

/-- Modelled from the spec: the far side of `_syscall` is not part of the
repository; this is the loop-back test double of the testable properties, a
strict FIFO. `Push` appends the parameter (for an array, a copy of its `size`
bytes); `Peek` fills in the tag of the head and, for an array, its size, and
copies no value; `Pop` requires the expected tag (and for an array a capacity of
at least the pending size), copies the head into the parameter or the supplied
buffer and removes it. Peek and Pop fail on an empty queue. A successful call
returns `0`, a failing one `-1`. -/
def Loopback.sys_param (t : syscall_type) (p : syscall_param) (s : Loopback) :
    Int × syscall_param × Loopback :=
  match t with
  | SYSCALL_PUSH =>
    match p.type with
    | SYSCALL_PARAM_ARRAY =>
      (0, p, { s with queue := s.queue ++ [Item.array ((s.load p.array).take p.size)] })
    | SYSCALL_PARAM_PRIMITIVE =>
      (0, p, { s with queue := s.queue ++ [Item.primitive p.value] })
  | SYSCALL_PEEK =>
    match s.queue with
    | [] => (-1, p, s)
    | Item.primitive _ :: _ => (0, { p with type := SYSCALL_PARAM_PRIMITIVE }, s)
    | Item.array bs :: _ => (0, { p with type := SYSCALL_PARAM_ARRAY, size := bs.length }, s)
  | SYSCALL_POP =>
    match s.queue with
    | [] => (-1, p, s)
    | Item.primitive v :: q =>
      if p.type = SYSCALL_PARAM_PRIMITIVE then (0, { p with value := v }, { s with queue := q })
      else (-1, p, s)
    | Item.array bs :: q =>
      if p.type = SYSCALL_PARAM_ARRAY ∧ bs.length ≤ p.size then
        (0, p, { s with queue := q,
                        heap := (p.array, bs ++ (s.load p.array).drop bs.length) :: s.heap })
      else (-1, p, s)
  | _ => (-1, p, s)

/-- Modelled from the spec: the loop-back environment. Its boundary is
`Loopback.sys_param`; it resolves no name (a `Method` request returns `-1`);
its allocator always succeeds, handing out the pointer after the last one (never
`NULL`) with `size` zeroed bytes; `free` drops the object. -/
def loopback : Env Loopback where
  load := Loopback.load
  sys_method := fun _ s => (-1, s)
  sys_param := Loopback.sys_param
  malloc := fun n s => (s.last + 1, { s with heap := (s.last + 1, List.replicate n 0) :: s.heap,
                                              last := s.last + 1 })
  free := fun p s => { s with heap := s.heap.filter (fun e => e.1 != p) }

/-! ## Reading the log -/

/-- The events issued between world `w` and a later world `w'`. -/
def issued {σ : Type} (w w' : World σ) : List Event := w'.trace.drop w.trace.length

/-- Is the event a `SYSCALL_METHOD` call? -/
def Event.isMethod : Event → Bool
  | Event.syscall SYSCALL_METHOD _ _ => true
  | _ => false

/-- Is the event a boundary call that returned a negative status? -/
def Event.failed : Event → Bool
  | Event.syscall _ _ r => decide (r < 0)
  | _ => false

/-! ## The external steps of `_syscall_pop_string` -/

/-- What the boundary answers to the Peek of `_syscall_pop_string`: status,
parameter as filled in, new state. -/
def peeked {σ : Type} (E : Env σ) (w : World σ) : Int × syscall_param × σ :=
  E.sys_param SYSCALL_PEEK ⟨SYSCALL_PARAM_ARRAY, 0, 0⟩ w.env

/-- What the allocator answers to the `malloc(p.size)` that follows the Peek. -/
def allocated {σ : Type} (E : Env σ) (w : World σ) : Nat × σ :=
  E.malloc (peeked E w).2.1.size (peeked E w).2.2

/-- The parameter `_syscall_pop_string` hands to Pop: the peeked one with the
allocated buffer in `array`. -/
def pop_param {σ : Type} (E : Env σ) (w : World σ) : syscall_param :=
  { (peeked E w).2.1 with value := (allocated E w).1 }

/-- What the boundary answers to the Pop that follows the allocation. -/
def popped_into {σ : Type} (E : Env σ) (w : World σ) : Int × syscall_param × σ :=
  E.sys_param SYSCALL_POP (pop_param E w) (allocated E w).2

/-! ## The external steps of `_syscall_pop_int` -/

/-- What the boundary answers to the Peek of `_syscall_pop_int`: status,
parameter as filled in, new state. -/
def peeked_int {σ : Type} (E : Env σ) (w : World σ) : Int × syscall_param × σ :=
  E.sys_param SYSCALL_PEEK ⟨SYSCALL_PARAM_PRIMITIVE, 0, 0⟩ w.env

/-- What the boundary answers to the Pop of `_syscall_pop_int`, which is handed
the parameter as the Peek left it. -/
def popped_int {σ : Type} (E : Env σ) (w : World σ) : Int × syscall_param × σ :=
  E.sys_param SYSCALL_POP (peeked_int E w).2.1 (peeked_int E w).2.2

/-! ## A scripted boundary -/

/-- The fixed answers of a scripted test double: the status of every Push, the
status of every Peek with the tag and size it reports, the status of every Pop,
the status of every Method request, the pointer every allocation returns, and
the contents of memory. -/
structure Script where
  push : Int
  peek : Int
  tag : syscall_param_type
  size : Nat
  pop : Int
  method : Int
  alloc : Nat
  mem : Nat → List Nat

/-- The environment that answers by the script and keeps no state. -/
def scripted (k : Script) : Env Unit where
  load := fun _ p => k.mem p
  sys_method := fun _ _ => (k.method, ())
  sys_param := fun t p _ =>
    match t with
    | SYSCALL_PUSH => (k.push, p, ())
    | SYSCALL_PEEK => (k.peek, { p with type := k.tag, size := k.size }, ())
    | SYSCALL_POP => (k.pop, p, ())
    | _ => (-1, p, ())
  malloc := fun _ _ => (k.alloc, ())
  free := fun _ _ => ()

/-- Memory holding the C string `"foo"` at pointer 1 and nothing else. -/
def foo_mem (p : Nat) : List Nat := if p = 1 then [102, 111, 111, 0] else []

/-- A boundary on which every call succeeds and every lookup resolves to 7. -/
def found : Script := ⟨0, 0, SYSCALL_PARAM_ARRAY, 3, 0, 7, 5, foo_mem⟩

/-- A boundary on which every call succeeds and every lookup returns `-1`. -/
def absent : Script := ⟨0, 0, SYSCALL_PARAM_ARRAY, 3, 0, -1, 5, foo_mem⟩

/-- A boundary on which Peek reports an array of 3 bytes and every Pop fails
with `-5`; allocations return pointer 5. -/
def pop_fails : Script := ⟨0, 0, SYSCALL_PARAM_ARRAY, 3, -5, 7, 5, foo_mem⟩

/-- A boundary on which every Push fails with `-1` and every lookup resolves
to 5. -/
def push_fails : Script := ⟨-1, 0, SYSCALL_PARAM_ARRAY, 3, 0, 5, 5, foo_mem⟩

/-- A boundary on which every Peek fails with `-4`. -/
def peek_fails : Script := ⟨0, -4, SYSCALL_PARAM_ARRAY, 3, 0, 7, 5, foo_mem⟩

/-- A boundary on which Peek reports an array of 3 bytes and every allocation
fails. -/
def alloc_fails : Script := ⟨0, 0, SYSCALL_PARAM_ARRAY, 3, 0, 7, 0, foo_mem⟩

/-- A boundary on which Peek reports a primitive and every Pop fails with
`-3`. -/
def primitive_pop_fails : Script := ⟨0, 0, SYSCALL_PARAM_PRIMITIVE, 0, -3, 7, 5, foo_mem⟩

/-- A boundary on which Peek reports a primitive and Pop stores 99 in the value
slot and then fails with `-3`. -/
def half_pop : Env Unit where
  load := fun _ _ => []
  sys_method := fun _ _ => (-1, ())
  sys_param := fun t p _ =>
    match t with
    | SYSCALL_PEEK => (0, { p with type := SYSCALL_PARAM_PRIMITIVE }, ())
    | SYSCALL_POP => (-3, { p with value := 99 }, ())
    | _ => (0, p, ())
  malloc := fun _ _ => (0, ())
  free := fun _ _ => ()

/-- A boundary that counts its Method requests and answers the first service
lookup (record `{0, 1, 0}` while the count is 0) with `-1`, every later service
lookup with 3, and every other lookup with 5; every Push succeeds. -/
def late_service : Env Nat where
  load := fun _ _ => []
  sys_method := fun m k =>
    (if m.interface = 1 then (if k = 0 then -1 else 3) else 5, k + 1)
  sys_param := fun _ p k => (0, p, k)
  malloc := fun _ k => (0, k)
  free := fun _ k => k

/-- The world of `late_service` before any call. -/
def late_start : World Nat := ⟨0, []⟩

/-- The world of a scripted boundary before any call. -/
def start : World Unit := ⟨(), []⟩

/-! ## Pushing and popping a sequence of values -/

/-- A value a caller sends: an `int64_t`, or a string given by the pointer
`str` passed to the codec together with the bytes `s` the caller means by it. -/
inductive Value
  | int (v : Int)
  | string (str : Nat) (s : List Nat)
  deriving DecidableEq

/-- A value a caller receives: the integer stored through `value`, or the bytes
of the buffer returned through `str`. -/
inductive Popped
  | int (v : Int)
  | string (bytes : List Nat)
  deriving DecidableEq

/-- The value the receiver should see for a sent value. -/
def Value.popped : Value → Popped
  | Value.int v => Popped.int v
  | Value.string _ s => Popped.string s

/-- The integer is a signed 64-bit one; the string's bytes, none of them zero,
stand in memory at its pointer followed by the terminator. -/
def Value.ok (m : Loopback) : Value → Prop
  | Value.int v => -2 ^ 63 ≤ v ∧ v < 2 ^ 63
  | Value.string str s => (∀ b ∈ s, b ≠ 0) ∧ (m.load str).take (s.length + 1) = s ++ [0]

/-- Push the values in order with `_syscall_push_int` / `_syscall_push_string`;
the statuses in order, and the final world. -/
def push_all {σ : Type} (E : Env σ) : List Value → World σ → List Int × World σ
  | [], w => ([], w)
  | Value.int v :: vs, w =>
    let r := _syscall_push_int E v w
    let rs := push_all E vs r.2
    (r.1 :: rs.1, rs.2)
  | Value.string str _ :: vs, w =>
    let r := _syscall_push_string E str w
    let rs := push_all E vs r.2
    (r.1 :: rs.1, rs.2)

/-- Pop one value per entry with the pop matching its kind (`_syscall_pop_int`
for an integer, `_syscall_pop_string` for a string); each status with what was
received, in order, and the final world. -/
def pop_all {σ : Type} (E : Env σ) : List Value → World σ → List (Int × Popped) × World σ
  | [], w => ([], w)
  | Value.int _ :: vs, w =>
    let r := _syscall_pop_int E 0 w
    let rs := pop_all E vs r.2.2
    ((r.1, Popped.int r.2.1) :: rs.1, rs.2)
  | Value.string _ _ :: vs, w =>
    let r := _syscall_pop_string E 0 w
    let rs := pop_all E vs r.2.2
    ((r.1, Popped.string (E.load r.2.2.env r.2.1)) :: rs.1, rs.2)

/-- The queue entry the loop-back boundary holds for a sent value. -/
def Value.item : Value → Item
  | Value.int v => Item.primitive (to_uint64 v)
  | Value.string _ s => Item.array s

/-! ## Concrete worlds and environments -/

/-- A loop-back world with an empty queue and the C string `"hi"` at pointer 1. -/
def hi_world : World Loopback := ⟨⟨[], [(1, [104, 105, 0])], 1⟩, []⟩

/-- A loop-back world with an empty queue and the bytes `A`, zero, `B`,
terminator at pointer 1. -/
def nul_world : World Loopback := ⟨⟨[], [(1, [65, 0, 66, 0])], 1⟩, []⟩

/-- A loop-back world with an empty queue and the bytes `B`, zero, `C`,
terminator at pointer 1. -/
def gap_world : World Loopback := ⟨⟨[], [(1, [66, 0, 67, 0])], 1⟩, []⟩

/-- A loop-back world with an empty queue and no object in memory. -/
def empty_world : World Loopback := ⟨⟨[], [], 0⟩, []⟩

/-! ## Helper lemmas -/

/-- The bytes before the first zero byte of a zero-free `s` followed by a
terminator are `s`. -/
theorem takeWhile_cstring (s rest : List Nat) (hs : ∀ b ∈ s, b ≠ 0) :
    (s ++ 0 :: rest).takeWhile (fun b => b != 0) = s := by
  induction s with
  | nil => simp
  | cons a t ih =>
    have ha : a ≠ 0 := hs a (List.mem_cons_self a t)
    have ht : ∀ b ∈ t, b ≠ 0 := fun b hb => hs b (List.mem_cons_of_mem a hb)
    have hb : (a != 0) = true := by simpa using ha
    simp [List.takeWhile, hb, ih ht]

/-- On the C string `s`, `strlen` is the length of `s`. -/
theorem strlen_cstring {σ : Type} (E : Env σ) (w : World σ) (str : Nat) (s rest : List Nat)
    (hmem : E.load w.env str = s ++ 0 :: rest) (hs : ∀ b ∈ s, b ≠ 0) :
    strlen E w str = s.length := by
  simp [strlen, hmem, takeWhile_cstring s rest hs]

/-- An `int64_t` survives the passage through a `uint64_t`. -/
theorem to_int64_to_uint64 (v : Int) (hlo : -2 ^ 63 ≤ v) (hhi : v < 2 ^ 63) :
    to_int64 (to_uint64 v) = v := by
  unfold to_int64 to_uint64
  have hnn : (0 : Int) ≤ v % 2 ^ 64 := Int.emod_nonneg v (by norm_num)
  have hlt : v % 2 ^ 64 < 2 ^ 64 := Int.emod_lt_of_pos v (by norm_num)
  have hmod : (((v % 2 ^ 64).toNat % 2 ^ 64 : Nat) : Int) = v % 2 ^ 64 := by
    have h1 : (v % 2 ^ 64).toNat % 2 ^ 64 = (v % 2 ^ 64).toNat := by
      apply Nat.mod_eq_of_lt
      omega
    rw [h1]
    exact Int.toNat_of_nonneg hnn
  by_cases hv : 0 ≤ v
  · have hv' : v % 2 ^ 64 = v := Int.emod_eq_of_lt hv (by omega)
    have hc : (v % 2 ^ 64).toNat % 2 ^ 64 < 2 ^ 63 := by
      have := hmod
      omega
    rw [if_pos hc, hmod, hv']
  · have hv' : v % 2 ^ 64 = v + 2 ^ 64 := by
      have h2 : (v + 2 ^ 64) % 2 ^ 64 = v + 2 ^ 64 := Int.emod_eq_of_lt (by omega) (by omega)
      rw [← h2]
      simp
    have hc : ¬ (v % 2 ^ 64).toNat % 2 ^ 64 < 2 ^ 63 := by
      have := hmod
      omega
    rw [if_neg hc, hmod, hv']
    ring

/-! ## The codec on the loop-back boundary -/

theorem loopback_load (s : Loopback) (p : Nat) : loopback.load s p = s.load p := rfl

theorem loopback_sys_param (t : syscall_type) (p : syscall_param) (s : Loopback) :
    loopback.sys_param t p s = Loopback.sys_param t p s := rfl

theorem loopback_malloc (n : Nat) (s : Loopback) :
    loopback.malloc n s =
      (s.last + 1, { s with heap := (s.last + 1, List.replicate n 0) :: s.heap,
                            last := s.last + 1 }) := rfl

/-- On the loop-back boundary `_syscall_push_string` succeeds and appends the
bytes of the C string. -/
theorem push_string_loopback (str : Nat) (w : World Loopback) :
    _syscall_push_string loopback str w =
      (0, ⟨{ w.env with queue := w.env.queue ++
              [Item.array ((w.env.load str).take (strlen loopback w str))] },
           w.trace ++ [Event.syscall SYSCALL_PUSH
              (Payload.param ⟨SYSCALL_PARAM_ARRAY, strlen loopback w str, str⟩) 0]⟩) := rfl

/-- On the loop-back boundary `_syscall_push_int` succeeds and appends the
value. -/
theorem push_int_loopback (v : Int) (w : World Loopback) :
    _syscall_push_int loopback v w =
      (0, ⟨{ w.env with queue := w.env.queue ++ [Item.primitive (to_uint64 v)] },
           w.trace ++ [Event.syscall SYSCALL_PUSH
              (Payload.param ⟨SYSCALL_PARAM_PRIMITIVE, 0, to_uint64 v⟩) 0]⟩) := rfl

/-- On the loop-back boundary, with an array at the head of the queue,
`_syscall_pop_string` peeks, allocates the pending size, pops into the buffer
and returns it. -/
theorem pop_string_loopback_array (out : Nat) (w : World Loopback) (bs : List Nat)
    (q : List Item) (hq : w.env.queue = Item.array bs :: q) :
    _syscall_pop_string loopback out w =
      (0, w.env.last + 1,
       ⟨{ queue := q,
          heap := (w.env.last + 1, bs) :: (w.env.last + 1, List.replicate bs.length 0)
                    :: w.env.heap,
          last := w.env.last + 1 },
        w.trace ++
          [Event.syscall SYSCALL_PEEK (Payload.param ⟨SYSCALL_PARAM_ARRAY, 0, 0⟩) 0,
           Event.malloc bs.length (w.env.last + 1),
           Event.syscall SYSCALL_POP
             (Payload.param ⟨SYSCALL_PARAM_ARRAY, bs.length, w.env.last + 1⟩) 0]⟩) := by
  simp [_syscall_pop_string, _syscall, malloc, loopback_sys_param, loopback_malloc,
    Loopback.sys_param, hq, syscall_param.array, Loopback.load, List.lookup]

/-- On the loop-back boundary, with a primitive at the head of the queue,
`_syscall_pop_string` fails after its Peek and changes nothing else. -/
theorem pop_string_loopback_primitive (out : Nat) (w : World Loopback) (v : Nat)
    (q : List Item) (hq : w.env.queue = Item.primitive v :: q) :
    _syscall_pop_string loopback out w =
      (-1, out, ⟨w.env, w.trace ++
          [Event.syscall SYSCALL_PEEK (Payload.param ⟨SYSCALL_PARAM_ARRAY, 0, 0⟩) 0]⟩) := by
  simp [_syscall_pop_string, _syscall, loopback_sys_param, Loopback.sys_param, hq]

/-- On the loop-back boundary, with a primitive at the head of the queue,
`_syscall_pop_int` peeks, pops and returns the value. -/
theorem pop_int_loopback_primitive (out : Int) (w : World Loopback) (v : Nat)
    (q : List Item) (hq : w.env.queue = Item.primitive v :: q) :
    _syscall_pop_int loopback out w =
      (0, to_int64 v, ⟨{ w.env with queue := q }, w.trace ++
          [Event.syscall SYSCALL_PEEK (Payload.param ⟨SYSCALL_PARAM_PRIMITIVE, 0, 0⟩) 0,
           Event.syscall SYSCALL_POP (Payload.param ⟨SYSCALL_PARAM_PRIMITIVE, 0, 0⟩) 0]⟩) := by
  simp [_syscall_pop_int, _syscall, loopback_sys_param, Loopback.sys_param, hq]

/-- C1 (amended): for every byte sequence `s` without a zero byte, held in
memory at `str` as a C string (the bytes of `s`, then the terminator), on the
loop-back boundary with an empty queue `_syscall_push_string(str)` followed by
`_syscall_pop_string(&out)` returns two non-negative statuses and leaves `out`
non-`NULL`, pointing at a buffer allocated with the length of `s` whose bytes
are exactly `s`; the queue is empty again. -/
theorem string_round_trip (s rest : List Nat) (str out : Nat) (w : World Loopback)
    (hq : w.env.queue = []) (hmem : w.env.load str = s ++ 0 :: rest)
    (hs : ∀ b ∈ s, b ≠ 0) :
    0 ≤ (_syscall_push_string loopback str w).1 ∧
    0 ≤ (_syscall_pop_string loopback out (_syscall_push_string loopback str w).2).1 ∧
    (_syscall_pop_string loopback out (_syscall_push_string loopback str w).2).2.1 ≠ 0 ∧
    Event.malloc s.length
        (_syscall_pop_string loopback out (_syscall_push_string loopback str w).2).2.1 ∈
      (_syscall_pop_string loopback out (_syscall_push_string loopback str w).2).2.2.trace ∧
    (_syscall_pop_string loopback out (_syscall_push_string loopback str w).2).2.2.env.load
      (_syscall_pop_string loopback out (_syscall_push_string loopback str w).2).2.1 = s ∧
    (_syscall_pop_string loopback out (_syscall_push_string loopback str w).2).2.2.env.queue
      = [] := by
  have hlen : strlen loopback w str = s.length := strlen_cstring loopback w str s rest hmem hs
  have hpush : (_syscall_push_string loopback str w).2.env.queue = Item.array s :: [] := by
    rw [push_string_loopback, hlen, hmem, hq]
    simp
  rw [pop_string_loopback_array out _ s [] hpush]
  simp [push_string_loopback, Loopback.load, List.lookup]

/-- Witness of `string_round_trip`: the string `"hi"`. -/
theorem string_round_trip_witness :
    hi_world.env.queue = [] ∧ hi_world.env.load 1 = [104, 105] ++ 0 :: [] ∧
    (∀ b ∈ [104, 105], b ≠ 0) ∧
    (0 ≤ (_syscall_push_string loopback 1 hi_world).1 ∧
    0 ≤ (_syscall_pop_string loopback 0 (_syscall_push_string loopback 1 hi_world).2).1 ∧
    (_syscall_pop_string loopback 0 (_syscall_push_string loopback 1 hi_world).2).2.1 ≠ 0 ∧
    Event.malloc [104, 105].length
        (_syscall_pop_string loopback 0 (_syscall_push_string loopback 1 hi_world).2).2.1 ∈
      (_syscall_pop_string loopback 0 (_syscall_push_string loopback 1 hi_world).2).2.2.trace ∧
    (_syscall_pop_string loopback 0 (_syscall_push_string loopback 1 hi_world).2).2.2.env.load
      (_syscall_pop_string loopback 0 (_syscall_push_string loopback 1 hi_world).2).2.1
      = [104, 105] ∧
    (_syscall_pop_string loopback 0 (_syscall_push_string loopback 1 hi_world).2).2.2.env.queue
      = []) :=
  ⟨by decide, by decide, by decide,
   string_round_trip [104, 105] [] 1 0 hi_world (by decide) (by decide) (by decide)⟩

/-- C1 as stated fails: the byte sequence `A`, zero, `B` (held in memory with its
terminator) is pushed with length 1, and the buffer popped back holds `A`
alone. -/
theorem string_round_trip_embedded_zero :
    nul_world.env.queue = [] ∧ nul_world.env.load 1 = [65, 0, 66] ++ [0] ∧
    0 ≤ (_syscall_pop_string loopback 0 (_syscall_push_string loopback 1 nul_world).2).1 ∧
    (_syscall_pop_string loopback 0 (_syscall_push_string loopback 1 nul_world).2).2.2.env.load
      (_syscall_pop_string loopback 0 (_syscall_push_string loopback 1 nul_world).2).2.1
      = [65] ∧
    (_syscall_pop_string loopback 0 (_syscall_push_string loopback 1 nul_world).2).2.2.env.load
      (_syscall_pop_string loopback 0 (_syscall_push_string loopback 1 nul_world).2).2.1
      ≠ [65, 0, 66] := by
  decide

/-- C2: for every signed 64-bit `v`, on the loop-back boundary with an empty
queue `_syscall_push_int(v)` followed by `_syscall_pop_int(&out)` returns two
non-negative statuses and sets `out` to `v`; the value is queued as the unsigned
64-bit `to_uint64 v`, and the queue is empty again. -/
theorem int_round_trip (v out : Int) (w : World Loopback)
    (hlo : -2 ^ 63 ≤ v) (hhi : v < 2 ^ 63) (hq : w.env.queue = []) :
    0 ≤ (_syscall_push_int loopback v w).1 ∧
    (_syscall_push_int loopback v w).2.env.queue = [Item.primitive (to_uint64 v)] ∧
    0 ≤ (_syscall_pop_int loopback out (_syscall_push_int loopback v w).2).1 ∧
    (_syscall_pop_int loopback out (_syscall_push_int loopback v w).2).2.1 = v ∧
    (_syscall_pop_int loopback out (_syscall_push_int loopback v w).2).2.2.env.queue = [] := by
  have hpush : (_syscall_push_int loopback v w).2.env.queue
      = Item.primitive (to_uint64 v) :: [] := by
    rw [push_int_loopback, hq]
    simp
  rw [pop_int_loopback_primitive out _ (to_uint64 v) [] hpush]
  simp [push_int_loopback, hq, to_int64_to_uint64 v hlo hhi]

/-- Witness of `int_round_trip`: `INT64_MIN`. -/
theorem int_round_trip_witness :
    (-2 ^ 63 ≤ (-9223372036854775808 : Int)) ∧ ((-9223372036854775808 : Int) < 2 ^ 63) ∧
    empty_world.env.queue = [] ∧
    (0 ≤ (_syscall_push_int loopback (-9223372036854775808) empty_world).1 ∧
    (_syscall_push_int loopback (-9223372036854775808) empty_world).2.env.queue
      = [Item.primitive (to_uint64 (-9223372036854775808))] ∧
    0 ≤ (_syscall_pop_int loopback 0
          (_syscall_push_int loopback (-9223372036854775808) empty_world).2).1 ∧
    (_syscall_pop_int loopback 0
          (_syscall_push_int loopback (-9223372036854775808) empty_world).2).2.1
      = -9223372036854775808 ∧
    (_syscall_pop_int loopback 0
          (_syscall_push_int loopback (-9223372036854775808) empty_world).2).2.2.env.queue
      = []) :=
  ⟨by decide, by decide, by decide,
   int_round_trip (-9223372036854775808) 0 empty_world (by decide) (by decide) (by decide)⟩

/-- C3: for every signed 64-bit `v`, on the loop-back boundary with an empty
queue, after `_syscall_push_int(v)` a call of `_syscall_pop_string` returns
`-1`, leaves `*str` and the state of the boundary (its queue included) as they
were, and issues one Peek and nothing else; a following `_syscall_pop_int`
returns a non-negative status and yields `v`. -/
theorem pop_string_after_push_int (v out : Int) (str : Nat) (w : World Loopback)
    (hlo : -2 ^ 63 ≤ v) (hhi : v < 2 ^ 63) (hq : w.env.queue = []) :
    (_syscall_pop_string loopback str (_syscall_push_int loopback v w).2).1 = -1 ∧
    (_syscall_pop_string loopback str (_syscall_push_int loopback v w).2).2.1 = str ∧
    (_syscall_pop_string loopback str (_syscall_push_int loopback v w).2).2.2.env
      = (_syscall_push_int loopback v w).2.env ∧
    issued (_syscall_push_int loopback v w).2
        (_syscall_pop_string loopback str (_syscall_push_int loopback v w).2).2.2
      = [Event.syscall SYSCALL_PEEK (Payload.param ⟨SYSCALL_PARAM_ARRAY, 0, 0⟩) 0] ∧
    0 ≤ (_syscall_pop_int loopback out
          (_syscall_pop_string loopback str (_syscall_push_int loopback v w).2).2.2).1 ∧
    (_syscall_pop_int loopback out
          (_syscall_pop_string loopback str (_syscall_push_int loopback v w).2).2.2).2.1
      = v := by
  have hpush : (_syscall_push_int loopback v w).2.env.queue
      = Item.primitive (to_uint64 v) :: [] := by
    rw [push_int_loopback, hq]
    simp
  rw [pop_string_loopback_primitive str _ (to_uint64 v) [] hpush]
  rw [pop_int_loopback_primitive out _ (to_uint64 v) [] (by simpa using hpush)]
  simp [issued, to_int64_to_uint64 v hlo hhi]

/-- Witness of `pop_string_after_push_int`: the value `-5`. -/
theorem pop_string_after_push_int_witness :
    (-2 ^ 63 ≤ (-5 : Int)) ∧ ((-5 : Int) < 2 ^ 63) ∧ empty_world.env.queue = [] ∧
    ((_syscall_pop_string loopback 9 (_syscall_push_int loopback (-5) empty_world).2).1 = -1 ∧
    (_syscall_pop_string loopback 9 (_syscall_push_int loopback (-5) empty_world).2).2.1 = 9 ∧
    (_syscall_pop_string loopback 9 (_syscall_push_int loopback (-5) empty_world).2).2.2.env
      = (_syscall_push_int loopback (-5) empty_world).2.env ∧
    issued (_syscall_push_int loopback (-5) empty_world).2
        (_syscall_pop_string loopback 9 (_syscall_push_int loopback (-5) empty_world).2).2.2
      = [Event.syscall SYSCALL_PEEK (Payload.param ⟨SYSCALL_PARAM_ARRAY, 0, 0⟩) 0] ∧
    0 ≤ (_syscall_pop_int loopback 0
          (_syscall_pop_string loopback 9 (_syscall_push_int loopback (-5) empty_world).2).2.2).1 ∧
    (_syscall_pop_int loopback 0
          (_syscall_pop_string loopback 9 (_syscall_push_int loopback (-5) empty_world).2).2.2).2.1
      = -5) :=
  ⟨by decide, by decide, by decide,
   pop_string_after_push_int (-5) 0 9 empty_world (by decide) (by decide) (by decide)⟩

/-! ## The resolver on an arbitrary boundary -/

/-- The events issued up to a world whose log extends the earlier one. -/
theorem issued_of_trace {σ : Type} (w w' : World σ) (evs : List Event)
    (h : w'.trace = w.trace ++ evs) : issued w w' = evs := by
  simp [issued, h]

/-- No event is issued between a world and itself. -/
theorem issued_self {σ : Type} (w : World σ) : issued w w = [] := by
  simp [issued]

/-- The log of `_syscall_service`: one Push of the name, one Method request. -/
theorem service_trace {σ : Type} (E : Env σ) (name : Nat) (w : World σ) :
    (_syscall_service E name w).2.trace = w.trace ++
      [Event.syscall SYSCALL_PUSH (Payload.param ⟨SYSCALL_PARAM_ARRAY, strlen E w name, name⟩)
         (E.sys_param SYSCALL_PUSH ⟨SYSCALL_PARAM_ARRAY, strlen E w name, name⟩ w.env).1,
       Event.syscall SYSCALL_METHOD (Payload.method ⟨0, 1, 0⟩)
         (_syscall_service E name w).1] := by
  simp [_syscall_service, _syscall, _syscall_METHOD]

/-- C4 (amended): for every boundary, when the first call of an accessor
generated by `DEFINE_SERVICE` (its static still `-1`) returns a status other than
`-1`, two calls in a row issue exactly one `SYSCALL_METHOD` call in total; the
second call returns the same handle as the first and issues no call at all (the
world is the one the first call left). -/
theorem service_memoized {σ : Type} (E : Env σ) (name : Nat) (c : Statics) (w : World σ)
    (hc : c.service = -1) (hfound : (bus_service E name c w).1 ≠ -1) :
    ((issued w (bus_service E name (bus_service E name c w).2.1
        (bus_service E name c w).2.2).2.2).filter Event.isMethod).length = 1 ∧
    (bus_service E name (bus_service E name c w).2.1 (bus_service E name c w).2.2).1
      = (bus_service E name c w).1 ∧
    (bus_service E name (bus_service E name c w).2.1 (bus_service E name c w).2.2).2.2
      = (bus_service E name c w).2.2 ∧
    issued (bus_service E name c w).2.2
      (bus_service E name (bus_service E name c w).2.1 (bus_service E name c w).2.2).2.2
      = [] := by
  have h1 : bus_service E name c w =
      ((_syscall_service E name w).1, { c with service := (_syscall_service E name w).1 },
       (_syscall_service E name w).2) := by
    simp [bus_service, hc]
  rw [h1] at hfound ⊢
  have h2 : bus_service E name { c with service := (_syscall_service E name w).1 }
      (_syscall_service E name w).2 =
      ((_syscall_service E name w).1, { c with service := (_syscall_service E name w).1 },
       (_syscall_service E name w).2) := by
    simp only [bus_service]
    rw [if_neg hfound]
  rw [h2]
  refine ⟨?_, rfl, rfl, issued_self _⟩
  rw [issued_of_trace w _ _ (service_trace E name w)]
  simp [Event.isMethod]

/-- Witness of `service_memoized`: a boundary that resolves the name to 7. -/
theorem service_memoized_witness :
    Statics.init.service = -1 ∧
    (bus_service (scripted found) 1 Statics.init start).1 ≠ -1 ∧
    (((issued start (bus_service (scripted found) 1
        (bus_service (scripted found) 1 Statics.init start).2.1
        (bus_service (scripted found) 1 Statics.init start).2.2).2.2).filter
          Event.isMethod).length = 1 ∧
    (bus_service (scripted found) 1 (bus_service (scripted found) 1 Statics.init start).2.1
        (bus_service (scripted found) 1 Statics.init start).2.2).1
      = (bus_service (scripted found) 1 Statics.init start).1 ∧
    (bus_service (scripted found) 1 (bus_service (scripted found) 1 Statics.init start).2.1
        (bus_service (scripted found) 1 Statics.init start).2.2).2.2
      = (bus_service (scripted found) 1 Statics.init start).2.2 ∧
    issued (bus_service (scripted found) 1 Statics.init start).2.2
      (bus_service (scripted found) 1 (bus_service (scripted found) 1 Statics.init start).2.1
        (bus_service (scripted found) 1 Statics.init start).2.2).2.2
      = []) :=
  ⟨by decide, by decide,
   service_memoized (scripted found) 1 Statics.init start (by decide) (by decide)⟩

/-- C4 as stated fails: on a boundary whose lookup returns `-1`, two calls in a
row of the accessor issue two `SYSCALL_METHOD` calls, the second call issuing a
Push and a Method request of its own. -/
theorem service_lookup_repeated :
    (bus_service (scripted absent) 1 Statics.init start).1 = -1 ∧
    ((issued start (bus_service (scripted absent) 1
        (bus_service (scripted absent) 1 Statics.init start).2.1
        (bus_service (scripted absent) 1 Statics.init start).2.2).2.2).filter
          Event.isMethod).length = 2 ∧
    issued (bus_service (scripted absent) 1 Statics.init start).2.2
      (bus_service (scripted absent) 1 (bus_service (scripted absent) 1 Statics.init start).2.1
        (bus_service (scripted absent) 1 Statics.init start).2.2).2.2
      = [Event.syscall SYSCALL_PUSH (Payload.param ⟨SYSCALL_PARAM_ARRAY, 3, 1⟩) 0,
         Event.syscall SYSCALL_METHOD (Payload.method ⟨0, 1, 0⟩) (-1)] := by
  decide

/-! ## FIFO order on the loop-back boundary -/

/-- `Value.ok` looks at the heap only. -/
theorem Value.ok_of_heap (m m' : Loopback) (h : m'.heap = m.heap) (v : Value)
    (hv : v.ok m) : v.ok m' := by
  cases v with
  | int v => exact hv
  | string str s =>
    simp only [Value.ok, Loopback.load, h] at hv ⊢
    exact hv

/-- The bytes `_syscall_push_string` queues for a well-formed string. -/
theorem take_strlen_of_ok (w : World Loopback) (str : Nat) (s : List Nat)
    (hv : (Value.string str s).ok w.env) :
    (w.env.load str).take (strlen loopback w str) = s := by
  obtain ⟨hs, hmem⟩ := hv
  have hsplit : w.env.load str = s ++ 0 :: (w.env.load str).drop (s.length + 1) := by
    have h := List.take_append_drop (s.length + 1) (w.env.load str)
    rw [hmem] at h
    simpa using h.symm
  have hlen : strlen loopback w str = s.length :=
    strlen_cstring loopback w str s _ hsplit hs
  rw [hlen, hsplit]
  simp

/-- Pushing well-formed values appends their entries to the queue, in order,
with status `0` each, and leaves memory and allocator alone. -/
theorem push_all_loopback (vs : List Value) :
    ∀ w : World Loopback, (∀ v ∈ vs, v.ok w.env) →
      (push_all loopback vs w).1 = vs.map (fun _ => 0) ∧
      (push_all loopback vs w).2.env =
        { w.env with queue := w.env.queue ++ vs.map Value.item } := by
  induction vs with
  | nil => intro w _; simp [push_all]
  | cons v vs ih =>
    intro w hok
    have hv : v.ok w.env := hok v (List.mem_cons_self v vs)
    have hvs : ∀ u ∈ vs, u.ok w.env := fun u hu => hok u (List.mem_cons_of_mem v hu)
    cases v with
    | int x =>
      have hnext : ∀ u ∈ vs, u.ok (_syscall_push_int loopback x w).2.env := fun u hu =>
        Value.ok_of_heap w.env _ rfl u (hvs u hu)
      obtain ⟨h1, h2⟩ := ih (_syscall_push_int loopback x w).2 hnext
      simp only [push_all, h1, h2]
      simp [push_int_loopback, Value.item]
    | string str s =>
      have hnext : ∀ u ∈ vs, u.ok (_syscall_push_string loopback str w).2.env := fun u hu =>
        Value.ok_of_heap w.env _ rfl u (hvs u hu)
      obtain ⟨h1, h2⟩ := ih (_syscall_push_string loopback str w).2 hnext
      simp only [push_all, h1, h2]
      simp [push_string_loopback, Value.item, take_strlen_of_ok w str s hv]

/-- Popping, kind by kind, a queue that starts with the entries of `vs` yields
the values of `vs` in order with status `0` each and leaves the rest of the
queue. -/
theorem pop_all_loopback (vs : List Value) :
    ∀ (w : World Loopback) (q : List Item),
      (∀ x, Value.int x ∈ vs → -2 ^ 63 ≤ x ∧ x < 2 ^ 63) →
      w.env.queue = vs.map Value.item ++ q →
      (pop_all loopback vs w).1 = vs.map (fun v => (0, v.popped)) ∧
      (pop_all loopback vs w).2.env.queue = q := by
  induction vs with
  | nil => intro w q _ hq; simpa [pop_all] using hq
  | cons v vs ih =>
    intro w q hok hq
    have hvs : ∀ x, Value.int x ∈ vs → -2 ^ 63 ≤ x ∧ x < 2 ^ 63 := fun x hx =>
      hok x (List.mem_cons_of_mem v hx)
    cases v with
    | int x =>
      have hx := hok x (List.mem_cons_self _ vs)
      have hq' : w.env.queue = Item.primitive (to_uint64 x) :: (vs.map Value.item ++ q) := by
        simpa [Value.item] using hq
      have hpop := pop_int_loopback_primitive 0 w (to_uint64 x) _ hq'
      obtain ⟨h1, h2⟩ := ih (_syscall_pop_int loopback 0 w).2.2 q hvs (by rw [hpop])
      simp only [pop_all, h1, h2]
      simp [hpop, Value.popped, to_int64_to_uint64 x hx.1 hx.2]
    | string str s =>
      have hq' : w.env.queue = Item.array s :: (vs.map Value.item ++ q) := by
        simpa [Value.item] using hq
      have hpop := pop_string_loopback_array 0 w s _ hq'
      obtain ⟨h1, h2⟩ := ih (_syscall_pop_string loopback 0 w).2.2 q hvs (by rw [hpop])
      simp only [pop_all, h1, h2]
      simp [hpop, Value.popped, loopback_load, Loopback.load, List.lookup]

/-- C5 (amended): for every finite sequence of values, each a signed 64-bit
integer or a byte string without a zero byte held in memory as a C string, on
the loop-back boundary with an empty queue, pushing them in order and then
popping with the matching pop in the same order returns status `0` from every
call, yields exactly the pushed values in the pushed order, and leaves the queue
empty. -/
theorem fifo_order (vs : List Value) (w : World Loopback)
    (hq : w.env.queue = []) (hok : ∀ v ∈ vs, v.ok w.env) :
    (∀ r ∈ (push_all loopback vs w).1, 0 ≤ r) ∧
    (pop_all loopback vs (push_all loopback vs w).2).1 = vs.map (fun v => (0, v.popped)) ∧
    (pop_all loopback vs (push_all loopback vs w).2).2.env.queue = [] := by
  obtain ⟨hst, henv⟩ := push_all_loopback vs w hok
  have hrange : ∀ x, Value.int x ∈ vs → -2 ^ 63 ≤ x ∧ x < 2 ^ 63 := fun x hx => hok _ hx
  have hqueue : (push_all loopback vs w).2.env.queue = vs.map Value.item ++ [] := by
    rw [henv, hq]
    simp
  refine ⟨?_, pop_all_loopback vs _ [] hrange hqueue⟩
  intro r hr
  rw [hst] at hr
  obtain ⟨_, _, rfl⟩ := List.mem_map.mp hr
  exact le_refl 0

/-- Witness of `fifo_order`: the string `"hi"`, then `-5`, then `"hi"` again. -/
theorem fifo_order_witness :
    hi_world.env.queue = [] ∧
    (∀ v ∈ [Value.string 1 [104, 105], Value.int (-5), Value.string 1 [104, 105]],
      v.ok hi_world.env) ∧
    ((∀ r ∈ (push_all loopback
        [Value.string 1 [104, 105], Value.int (-5), Value.string 1 [104, 105]] hi_world).1,
        0 ≤ r) ∧
    (pop_all loopback [Value.string 1 [104, 105], Value.int (-5), Value.string 1 [104, 105]]
        (push_all loopback
          [Value.string 1 [104, 105], Value.int (-5), Value.string 1 [104, 105]] hi_world).2).1
      = [Value.string 1 [104, 105], Value.int (-5), Value.string 1 [104, 105]].map
          (fun v => (0, v.popped)) ∧
    (pop_all loopback [Value.string 1 [104, 105], Value.int (-5), Value.string 1 [104, 105]]
        (push_all loopback
          [Value.string 1 [104, 105], Value.int (-5), Value.string 1 [104, 105]]
          hi_world).2).2.env.queue = []) :=
  ⟨by decide, by simp [Value.ok, hi_world, Loopback.load, List.lookup],
   fifo_order [Value.string 1 [104, 105], Value.int (-5), Value.string 1 [104, 105]] hi_world
     (by decide) (by simp [Value.ok, hi_world, Loopback.load, List.lookup])⟩

/-- C5 as stated fails: pushing the integer 7 and then the byte string `B`,
zero, `C` (held in memory with its terminator) and popping both yields 7 and
then the one byte `B`, not the pushed string. -/
theorem fifo_order_embedded_zero :
    gap_world.env.queue = [] ∧ gap_world.env.load 1 = [66, 0, 67] ++ [0] ∧
    (pop_all loopback [Value.int 7, Value.string 1 [66, 0, 67]]
        (push_all loopback [Value.int 7, Value.string 1 [66, 0, 67]] gap_world).2).1
      = [(0, Popped.int 7), (0, Popped.string [66])] ∧
    (pop_all loopback [Value.int 7, Value.string 1 [66, 0, 67]]
        (push_all loopback [Value.int 7, Value.string 1 [66, 0, 67]] gap_world).2).1
      ≠ [Value.int 7, Value.string 1 [66, 0, 67]].map (fun v => (0, v.popped)) := by
  decide

/-! ## Failure paths on an arbitrary boundary -/

/-- The five exits of `_syscall_pop_string`, in terms of what the environment
answers at each step. -/
theorem pop_string_exits {σ : Type} (E : Env σ) (str : Nat) (w : World σ) :
    _syscall_pop_string E str w =
      if (peeked E w).1 < 0 then
        ((peeked E w).1, str, ⟨(peeked E w).2.2, w.trace ++
          [Event.syscall SYSCALL_PEEK (Payload.param ⟨SYSCALL_PARAM_ARRAY, 0, 0⟩)
            (peeked E w).1]⟩)
      else if (peeked E w).2.1.type ≠ SYSCALL_PARAM_ARRAY then
        (-1, str, ⟨(peeked E w).2.2, w.trace ++
          [Event.syscall SYSCALL_PEEK (Payload.param ⟨SYSCALL_PARAM_ARRAY, 0, 0⟩)
            (peeked E w).1]⟩)
      else if (allocated E w).1 = 0 then
        (-1, (allocated E w).1, ⟨(allocated E w).2, w.trace ++
          [Event.syscall SYSCALL_PEEK (Payload.param ⟨SYSCALL_PARAM_ARRAY, 0, 0⟩)
            (peeked E w).1,
           Event.malloc (peeked E w).2.1.size (allocated E w).1]⟩)
      else if (popped_into E w).1 < 0 then
        ((popped_into E w).1, 0, ⟨E.free (allocated E w).1 (popped_into E w).2.2, w.trace ++
          [Event.syscall SYSCALL_PEEK (Payload.param ⟨SYSCALL_PARAM_ARRAY, 0, 0⟩)
            (peeked E w).1,
           Event.malloc (peeked E w).2.1.size (allocated E w).1,
           Event.syscall SYSCALL_POP (Payload.param (pop_param E w)) (popped_into E w).1,
           Event.free (allocated E w).1]⟩)
      else
        ((popped_into E w).1, (allocated E w).1, ⟨(popped_into E w).2.2, w.trace ++
          [Event.syscall SYSCALL_PEEK (Payload.param ⟨SYSCALL_PARAM_ARRAY, 0, 0⟩)
            (peeked E w).1,
           Event.malloc (peeked E w).2.1.size (allocated E w).1,
           Event.syscall SYSCALL_POP (Payload.param (pop_param E w))
            (popped_into E w).1]⟩) := by
  simp only [_syscall_pop_string, _syscall, malloc, free, peeked, allocated, popped_into,
    pop_param, List.append_assoc, List.singleton_append, List.cons_append, List.nil_append]

/-- The two exits after the tag check of `_syscall_pop_int`, and the two before
it. -/
theorem pop_int_exits {σ : Type} (E : Env σ) (value : Int) (w : World σ) :
    _syscall_pop_int E value w =
      if (E.sys_param SYSCALL_PEEK ⟨SYSCALL_PARAM_PRIMITIVE, 0, 0⟩ w.env).1 < 0 then
        ((E.sys_param SYSCALL_PEEK ⟨SYSCALL_PARAM_PRIMITIVE, 0, 0⟩ w.env).1, value,
          ⟨(E.sys_param SYSCALL_PEEK ⟨SYSCALL_PARAM_PRIMITIVE, 0, 0⟩ w.env).2.2, w.trace ++
            [Event.syscall SYSCALL_PEEK (Payload.param ⟨SYSCALL_PARAM_PRIMITIVE, 0, 0⟩)
              (E.sys_param SYSCALL_PEEK ⟨SYSCALL_PARAM_PRIMITIVE, 0, 0⟩ w.env).1]⟩)
      else if (E.sys_param SYSCALL_PEEK ⟨SYSCALL_PARAM_PRIMITIVE, 0, 0⟩ w.env).2.1.type
          ≠ SYSCALL_PARAM_PRIMITIVE then
        (-1, value,
          ⟨(E.sys_param SYSCALL_PEEK ⟨SYSCALL_PARAM_PRIMITIVE, 0, 0⟩ w.env).2.2, w.trace ++
            [Event.syscall SYSCALL_PEEK (Payload.param ⟨SYSCALL_PARAM_PRIMITIVE, 0, 0⟩)
              (E.sys_param SYSCALL_PEEK ⟨SYSCALL_PARAM_PRIMITIVE, 0, 0⟩ w.env).1]⟩)
      else
        ((E.sys_param SYSCALL_POP
            (E.sys_param SYSCALL_PEEK ⟨SYSCALL_PARAM_PRIMITIVE, 0, 0⟩ w.env).2.1
            (E.sys_param SYSCALL_PEEK ⟨SYSCALL_PARAM_PRIMITIVE, 0, 0⟩ w.env).2.2).1,
         to_int64 (E.sys_param SYSCALL_POP
            (E.sys_param SYSCALL_PEEK ⟨SYSCALL_PARAM_PRIMITIVE, 0, 0⟩ w.env).2.1
            (E.sys_param SYSCALL_PEEK ⟨SYSCALL_PARAM_PRIMITIVE, 0, 0⟩ w.env).2.2).2.1.value,
         ⟨(E.sys_param SYSCALL_POP
            (E.sys_param SYSCALL_PEEK ⟨SYSCALL_PARAM_PRIMITIVE, 0, 0⟩ w.env).2.1
            (E.sys_param SYSCALL_PEEK ⟨SYSCALL_PARAM_PRIMITIVE, 0, 0⟩ w.env).2.2).2.2,
          w.trace ++
            [Event.syscall SYSCALL_PEEK (Payload.param ⟨SYSCALL_PARAM_PRIMITIVE, 0, 0⟩)
              (E.sys_param SYSCALL_PEEK ⟨SYSCALL_PARAM_PRIMITIVE, 0, 0⟩ w.env).1,
             Event.syscall SYSCALL_POP
              (Payload.param (E.sys_param SYSCALL_PEEK ⟨SYSCALL_PARAM_PRIMITIVE, 0, 0⟩ w.env).2.1)
              (E.sys_param SYSCALL_POP
                (E.sys_param SYSCALL_PEEK ⟨SYSCALL_PARAM_PRIMITIVE, 0, 0⟩ w.env).2.1
                (E.sys_param SYSCALL_PEEK ⟨SYSCALL_PARAM_PRIMITIVE, 0, 0⟩ w.env).2.2).1]⟩) := by
  simp only [_syscall_pop_int, _syscall, List.append_assoc, List.singleton_append,
    List.cons_append, List.nil_append]

/-- C6: for every boundary on which the Peek of `_syscall_pop_string` succeeds and
reports an array, the allocation succeeds and the Pop returns a negative status,
`_syscall_pop_string` returns that status, leaves `*str` `NULL`, and issues
exactly the Peek, the allocation, the Pop and the release of the allocated
buffer. -/
theorem pop_string_pop_failure {σ : Type} (E : Env σ) (str : Nat) (w : World σ)
    (hpeek : 0 ≤ (peeked E w).1)
    (htag : (peeked E w).2.1.type = SYSCALL_PARAM_ARRAY)
    (halloc : (allocated E w).1 ≠ 0)
    (hpop : (popped_into E w).1 < 0) :
    (_syscall_pop_string E str w).1 = (popped_into E w).1 ∧
    (_syscall_pop_string E str w).2.1 = 0 ∧
    issued w (_syscall_pop_string E str w).2.2 =
      [Event.syscall SYSCALL_PEEK (Payload.param ⟨SYSCALL_PARAM_ARRAY, 0, 0⟩) (peeked E w).1,
       Event.malloc (peeked E w).2.1.size (allocated E w).1,
       Event.syscall SYSCALL_POP (Payload.param (pop_param E w)) (popped_into E w).1,
       Event.free (allocated E w).1] ∧
    (_syscall_pop_string E str w).2.2.env = E.free (allocated E w).1 (popped_into E w).2.2 := by
  rw [pop_string_exits, if_neg (not_lt.mpr hpeek), if_neg (not_not.mpr htag), if_neg halloc,
    if_pos hpop]
  exact ⟨rfl, rfl, issued_of_trace _ _ _ rfl, rfl⟩

/-- Witness of `pop_string_pop_failure`: the scripted boundary whose Pop fails
with `-5`. -/
theorem pop_string_pop_failure_witness :
    0 ≤ (peeked (scripted pop_fails) start).1 ∧
    (peeked (scripted pop_fails) start).2.1.type = SYSCALL_PARAM_ARRAY ∧
    (allocated (scripted pop_fails) start).1 ≠ 0 ∧
    (popped_into (scripted pop_fails) start).1 < 0 ∧
    ((_syscall_pop_string (scripted pop_fails) 9 start).1
        = (popped_into (scripted pop_fails) start).1 ∧
    (_syscall_pop_string (scripted pop_fails) 9 start).2.1 = 0 ∧
    issued start (_syscall_pop_string (scripted pop_fails) 9 start).2.2 =
      [Event.syscall SYSCALL_PEEK (Payload.param ⟨SYSCALL_PARAM_ARRAY, 0, 0⟩)
         (peeked (scripted pop_fails) start).1,
       Event.malloc (peeked (scripted pop_fails) start).2.1.size
         (allocated (scripted pop_fails) start).1,
       Event.syscall SYSCALL_POP (Payload.param (pop_param (scripted pop_fails) start))
         (popped_into (scripted pop_fails) start).1,
       Event.free (allocated (scripted pop_fails) start).1] ∧
    (_syscall_pop_string (scripted pop_fails) 9 start).2.2.env
      = (scripted pop_fails).free (allocated (scripted pop_fails) start).1
          (popped_into (scripted pop_fails) start).2.2) :=
  ⟨by decide, by decide, by decide, by decide,
   pop_string_pop_failure (scripted pop_fails) 9 start (by decide) (by decide) (by decide)
     (by decide)⟩

/-- C7 (amended): on every boundary, each codec operation (`_syscall_push_string`,
`_syscall_push_int`, `_syscall_pop_string`, `_syscall_pop_int`) returns a
negative value whenever a boundary call it issued returned a negative status,
and each resolver operation (`_syscall_service`, `_syscall_interface`,
`_syscall_method`) returns a negative value whenever its `SYSCALL_METHOD` call
returned a negative status. -/
theorem error_propagation {σ : Type} (E : Env σ) (w : World σ) :
    (∀ str, ∀ e ∈ issued w (_syscall_push_string E str w).2, e.failed = true →
      (_syscall_push_string E str w).1 < 0) ∧
    (∀ v, ∀ e ∈ issued w (_syscall_push_int E v w).2, e.failed = true →
      (_syscall_push_int E v w).1 < 0) ∧
    (∀ str, ∀ e ∈ issued w (_syscall_pop_string E str w).2.2, e.failed = true →
      (_syscall_pop_string E str w).1 < 0) ∧
    (∀ v, ∀ e ∈ issued w (_syscall_pop_int E v w).2.2, e.failed = true →
      (_syscall_pop_int E v w).1 < 0) ∧
    (∀ name, ∀ e ∈ issued w (_syscall_service E name w).2, e.isMethod = true →
      e.failed = true → (_syscall_service E name w).1 < 0) ∧
    (∀ service name, ∀ e ∈ issued w (_syscall_interface E service name w).2,
      e.isMethod = true → e.failed = true → (_syscall_interface E service name w).1 < 0) ∧
    (∀ service interface name,
      ∀ e ∈ issued w (_syscall_method E service interface name w).2,
      e.isMethod = true → e.failed = true →
      (_syscall_method E service interface name w).1 < 0) := by
  refine ⟨?_, ?_, ?_, ?_, ?_, ?_, ?_⟩
  · intro str e he hf
    simp only [_syscall_push_string, _syscall, issued, List.drop_left, List.mem_singleton]
      at he ⊢
    subst he
    simpa [Event.failed] using hf
  · intro v e he hf
    simp only [_syscall_push_int, _syscall, issued, List.drop_left, List.mem_singleton]
      at he ⊢
    subst he
    simpa [Event.failed] using hf
  · intro str e he hf
    rw [pop_string_exits] at he ⊢
    split_ifs at he ⊢ with h1 h2 h3 h4
    · exact h1
    · norm_num
    · norm_num
    · exact h4
    · simp only [issued, List.drop_left, List.mem_cons, List.mem_singleton,
        List.not_mem_nil, or_false] at he
      rcases he with rfl | rfl | rfl
      · exact absurd (by simpa [Event.failed] using hf) h1
      · simp [Event.failed] at hf
      · exact absurd (by simpa [Event.failed] using hf) h4
  · intro v e he hf
    rw [pop_int_exits] at he ⊢
    split_ifs at he ⊢ with h1 h2
    · exact h1
    · norm_num
    · simp only [issued, List.drop_left, List.mem_cons, List.mem_singleton,
        List.not_mem_nil, or_false] at he
      rcases he with rfl | rfl
      · exact absurd (by simpa [Event.failed] using hf) h1
      · simpa [Event.failed] using hf
  · intro name e he hm hf
    simp only [_syscall_service, _syscall, _syscall_METHOD, issued, List.append_assoc,
      List.drop_left, List.mem_cons, List.mem_singleton, List.singleton_append,
      List.not_mem_nil, or_false] at he ⊢
    rcases he with rfl | rfl
    · simp [Event.isMethod] at hm
    · simpa [Event.failed] using hf
  · intro service name e he hm hf
    simp only [_syscall_interface, _syscall, _syscall_METHOD, issued, List.append_assoc,
      List.drop_left, List.mem_cons, List.mem_singleton, List.singleton_append,
      List.not_mem_nil, or_false] at he ⊢
    rcases he with rfl | rfl
    · simp [Event.isMethod] at hm
    · simpa [Event.failed] using hf
  · intro service interface name e he hm hf
    simp only [_syscall_method, _syscall, _syscall_METHOD, issued, List.append_assoc,
      List.drop_left, List.mem_cons, List.mem_singleton, List.singleton_append,
      List.cons_append, List.nil_append, List.not_mem_nil, or_false] at he ⊢
    rcases he with rfl | rfl | rfl
    · simp [Event.isMethod] at hm
    · simp [Event.isMethod] at hm
    · simpa [Event.failed] using hf

/-- C7 as stated fails: on a boundary whose Push fails with `-1` and whose
lookup answers 5, `_syscall_service` issues a Push that returns `-1` and yet
returns 5, a non-negative value. -/
theorem service_ignores_push_failure :
    Event.syscall SYSCALL_PUSH (Payload.param ⟨SYSCALL_PARAM_ARRAY, 3, 1⟩) (-1) ∈
      issued start (_syscall_service (scripted push_fails) 1 start).2 ∧
    (Event.syscall SYSCALL_PUSH (Payload.param ⟨SYSCALL_PARAM_ARRAY, 3, 1⟩) (-1)).failed
      = true ∧
    (_syscall_service (scripted push_fails) 1 start).1 = 5 ∧
    ¬ (_syscall_service (scripted push_fails) 1 start).1 < 0 := by
  decide

/-- Witness of `error_propagation`: on the boundary whose Pop fails with `-5`,
`_syscall_pop_string` issues that failing Pop and returns a negative value; on
the boundary whose lookup returns `-1`, `_syscall_service` returns a negative
value. -/
theorem error_propagation_witness :
    Event.syscall SYSCALL_POP (Payload.param ⟨SYSCALL_PARAM_ARRAY, 3, 5⟩) (-5) ∈
      issued start (_syscall_pop_string (scripted pop_fails) 9 start).2.2 ∧
    (_syscall_pop_string (scripted pop_fails) 9 start).1 < 0 ∧
    Event.syscall SYSCALL_METHOD (Payload.method ⟨0, 1, 0⟩) (-1) ∈
      issued start (_syscall_service (scripted absent) 1 start).2 ∧
    (_syscall_service (scripted absent) 1 start).1 < 0 :=
  ⟨by decide,
   (error_propagation (scripted pop_fails) start).2.2.1 9
     (Event.syscall SYSCALL_POP (Payload.param ⟨SYSCALL_PARAM_ARRAY, 3, 5⟩) (-5))
     (by decide) (by decide),
   by decide,
   (error_propagation (scripted absent) start).2.2.2.2.1 1
     (Event.syscall SYSCALL_METHOD (Payload.method ⟨0, 1, 0⟩) (-1))
     (by decide) (by decide) (by decide)⟩

/-! ## The cache of the generated accessors -/

/-- A non-negative `int64_t` is its own `uint64_t`. -/
theorem to_uint64_of_nonneg (v : Int) (h0 : 0 ≤ v) (hhi : v < 2 ^ 63) :
    ((to_uint64 v : Nat) : Int) = v := by
  unfold to_uint64
  have hv : v % 2 ^ 64 = v := Int.emod_eq_of_lt h0 (by omega)
  rw [hv]
  exact Int.toNat_of_nonneg h0

/-- C9: for every service handle, interface handle and name, on every boundary,
`_syscall_method(service, interface, name)` issues exactly three calls, in this
order: `SYSCALL_PUSH` of a Primitive parameter whose value is the interface
handle (as `uint64_t`), `SYSCALL_PUSH` of an Array parameter whose buffer is
`name` and whose size is `strlen(name)`, `SYSCALL_METHOD` with the record
`{service, 0, 1}` (the handle as `uint64_t`); it returns the status of that
Method call. `strlen(name)` is the number of bytes of the name whenever the
memory at `name` holds zero-free bytes followed by a terminator. -/
theorem method_wire_protocol {σ : Type} (E : Env σ) (service interface : Int) (name : Nat)
    (w : World σ) :
    (∃ r1 r2 : Int, issued w (_syscall_method E service interface name w).2 =
      [Event.syscall SYSCALL_PUSH
         (Payload.param ⟨SYSCALL_PARAM_PRIMITIVE, 0, to_uint64 interface⟩) r1,
       Event.syscall SYSCALL_PUSH
         (Payload.param ⟨SYSCALL_PARAM_ARRAY, strlen E w name, name⟩) r2,
       Event.syscall SYSCALL_METHOD (Payload.method ⟨to_uint64 service, 0, 1⟩)
         (_syscall_method E service interface name w).1]) ∧
    (∀ s rest : List Nat, E.load w.env name = s ++ 0 :: rest → (∀ b ∈ s, b ≠ 0) →
      strlen E w name = s.length) := by
  refine ⟨⟨(E.sys_param SYSCALL_PUSH ⟨SYSCALL_PARAM_PRIMITIVE, 0, to_uint64 interface⟩ w.env).1,
    (E.sys_param SYSCALL_PUSH ⟨SYSCALL_PARAM_ARRAY, strlen E w name, name⟩
      (E.sys_param SYSCALL_PUSH ⟨SYSCALL_PARAM_PRIMITIVE, 0, to_uint64 interface⟩ w.env).2.2).1,
    issued_of_trace _ _ _ ?_⟩, fun s rest hmem hs => strlen_cstring E w name s rest hmem hs⟩
  simp only [_syscall_method, _syscall, _syscall_METHOD, List.append_assoc,
    List.singleton_append, List.cons_append, List.nil_append]

/-- Witness of `method_wire_protocol`: the name `"foo"`, service 4, interface
`-1`, on a boundary that resolves every name to 7. -/
theorem method_wire_protocol_witness :
    issued start (_syscall_method (scripted found) 4 (-1) 1 start).2 =
      [Event.syscall SYSCALL_PUSH
         (Payload.param ⟨SYSCALL_PARAM_PRIMITIVE, 0, 18446744073709551615⟩) 0,
       Event.syscall SYSCALL_PUSH (Payload.param ⟨SYSCALL_PARAM_ARRAY, 3, 1⟩) 0,
       Event.syscall SYSCALL_METHOD (Payload.method ⟨4, 0, 1⟩) 7] ∧
    (_syscall_method (scripted found) 4 (-1) 1 start).1 = 7 ∧
    strlen (scripted found) start 1 = [102, 111, 111].length :=
  ⟨by decide, by decide,
   (method_wire_protocol (scripted found) 4 (-1) 1 start).2 [102, 111, 111] []
     (by decide) (by decide)⟩

/-- C10: for every name and service handle, on every boundary,
`_syscall_service(name)` issues exactly one `SYSCALL_PUSH` of the Array
parameter with buffer `name` and size `strlen(name)` followed by exactly one
`SYSCALL_METHOD` with the record `{0, 1, 0}`, and
`_syscall_interface(service, name)` issues the same Push followed by exactly one
`SYSCALL_METHOD` with the record `{service, 0, 0}` (the handle as `uint64_t`);
nothing else is issued, and each returns the status of its Method call.
`strlen(name)` is the number of bytes of the name whenever the memory at `name`
holds zero-free bytes followed by a terminator. -/
theorem service_interface_wire_protocol {σ : Type} (E : Env σ) (service : Int) (name : Nat)
    (w : World σ) :
    (∃ r : Int, issued w (_syscall_service E name w).2 =
      [Event.syscall SYSCALL_PUSH
         (Payload.param ⟨SYSCALL_PARAM_ARRAY, strlen E w name, name⟩) r,
       Event.syscall SYSCALL_METHOD (Payload.method ⟨0, 1, 0⟩)
         (_syscall_service E name w).1]) ∧
    (∃ r : Int, issued w (_syscall_interface E service name w).2 =
      [Event.syscall SYSCALL_PUSH
         (Payload.param ⟨SYSCALL_PARAM_ARRAY, strlen E w name, name⟩) r,
       Event.syscall SYSCALL_METHOD (Payload.method ⟨to_uint64 service, 0, 0⟩)
         (_syscall_interface E service name w).1]) ∧
    (∀ s rest : List Nat, E.load w.env name = s ++ 0 :: rest → (∀ b ∈ s, b ≠ 0) →
      strlen E w name = s.length) := by
  refine ⟨⟨(E.sys_param SYSCALL_PUSH ⟨SYSCALL_PARAM_ARRAY, strlen E w name, name⟩ w.env).1,
      issued_of_trace _ _ _ ?_⟩,
    ⟨(E.sys_param SYSCALL_PUSH ⟨SYSCALL_PARAM_ARRAY, strlen E w name, name⟩ w.env).1,
      issued_of_trace _ _ _ ?_⟩,
    fun s rest hmem hs => strlen_cstring E w name s rest hmem hs⟩
  · simp only [_syscall_service, _syscall, _syscall_METHOD, List.append_assoc,
      List.singleton_append, List.cons_append, List.nil_append]
  · simp only [_syscall_interface, _syscall, _syscall_METHOD, List.append_assoc,
      List.singleton_append, List.cons_append, List.nil_append]

/-- Witness of `service_interface_wire_protocol`: the name `"foo"` and service 4
on a boundary that resolves every name to 7. -/
theorem service_interface_wire_protocol_witness :
    issued start (_syscall_service (scripted found) 1 start).2 =
      [Event.syscall SYSCALL_PUSH (Payload.param ⟨SYSCALL_PARAM_ARRAY, 3, 1⟩) 0,
       Event.syscall SYSCALL_METHOD (Payload.method ⟨0, 1, 0⟩) 7] ∧
    issued start (_syscall_interface (scripted found) 4 1 start).2 =
      [Event.syscall SYSCALL_PUSH (Payload.param ⟨SYSCALL_PARAM_ARRAY, 3, 1⟩) 0,
       Event.syscall SYSCALL_METHOD (Payload.method ⟨4, 0, 0⟩) 7] ∧
    strlen (scripted found) start 1 = [102, 111, 111].length :=
  ⟨by decide, by decide,
   (service_interface_wire_protocol (scripted found) 4 1 start).2.2 [102, 111, 111] []
     (by decide) (by decide)⟩

/-- The log of `_syscall_interface`: one Push of the name, one Method request. -/
theorem interface_trace {σ : Type} (E : Env σ) (service : Int) (name : Nat) (w : World σ) :
    (_syscall_interface E service name w).2.trace = w.trace ++
      [Event.syscall SYSCALL_PUSH (Payload.param ⟨SYSCALL_PARAM_ARRAY, strlen E w name, name⟩)
         (E.sys_param SYSCALL_PUSH ⟨SYSCALL_PARAM_ARRAY, strlen E w name, name⟩ w.env).1,
       Event.syscall SYSCALL_METHOD (Payload.method ⟨to_uint64 service, 0, 0⟩)
         (_syscall_interface E service name w).1] := by
  simp [_syscall_interface, _syscall, _syscall_METHOD]

/-- The log of `_syscall_method`: two Pushes, one Method request. -/
theorem method_trace {σ : Type} (E : Env σ) (service interface : Int) (name : Nat)
    (w : World σ) :
    (_syscall_method E service interface name w).2.trace = w.trace ++
      [Event.syscall SYSCALL_PUSH
         (Payload.param ⟨SYSCALL_PARAM_PRIMITIVE, 0, to_uint64 interface⟩)
         (E.sys_param SYSCALL_PUSH ⟨SYSCALL_PARAM_PRIMITIVE, 0, to_uint64 interface⟩ w.env).1,
       Event.syscall SYSCALL_PUSH (Payload.param ⟨SYSCALL_PARAM_ARRAY, strlen E w name, name⟩)
         (E.sys_param SYSCALL_PUSH ⟨SYSCALL_PARAM_ARRAY, strlen E w name, name⟩
           (E.sys_param SYSCALL_PUSH
             ⟨SYSCALL_PARAM_PRIMITIVE, 0, to_uint64 interface⟩ w.env).2.2).1,
       Event.syscall SYSCALL_METHOD (Payload.method ⟨to_uint64 service, 0, 1⟩)
         (_syscall_method E service interface name w).1] := by
  simp [_syscall_method, _syscall, _syscall_METHOD]

/-- C11: on every boundary, each of `_syscall_service`, `_syscall_interface` and
`_syscall_method` issues exactly one `SYSCALL_METHOD` call per invocation, and
its return value is exactly the status of that call, negative or not; so a
lookup the boundary answers with a negative status yields a negative handle. -/
theorem lookup_status_verbatim {σ : Type} (E : Env σ) (service interface : Int) (name : Nat)
    (w : World σ) :
    ((issued w (_syscall_service E name w).2).filter Event.isMethod =
        [Event.syscall SYSCALL_METHOD (Payload.method ⟨0, 1, 0⟩)
          (_syscall_service E name w).1] ∧
      (_syscall_service E name w).1 =
        (E.sys_method ⟨0, 1, 0⟩
          (_syscall E SYSCALL_PUSH ⟨SYSCALL_PARAM_ARRAY, strlen E w name, name⟩ w).2.2.env).1) ∧
    ((issued w (_syscall_interface E service name w).2).filter Event.isMethod =
        [Event.syscall SYSCALL_METHOD (Payload.method ⟨to_uint64 service, 0, 0⟩)
          (_syscall_interface E service name w).1] ∧
      (_syscall_interface E service name w).1 =
        (E.sys_method ⟨to_uint64 service, 0, 0⟩
          (_syscall E SYSCALL_PUSH ⟨SYSCALL_PARAM_ARRAY, strlen E w name, name⟩ w).2.2.env).1) ∧
    ((issued w (_syscall_method E service interface name w).2).filter Event.isMethod =
        [Event.syscall SYSCALL_METHOD (Payload.method ⟨to_uint64 service, 0, 1⟩)
          (_syscall_method E service interface name w).1] ∧
      (_syscall_method E service interface name w).1 =
        (E.sys_method ⟨to_uint64 service, 0, 1⟩
          (_syscall E SYSCALL_PUSH ⟨SYSCALL_PARAM_ARRAY, strlen E w name, name⟩
            (_syscall E SYSCALL_PUSH
              ⟨SYSCALL_PARAM_PRIMITIVE, 0, to_uint64 interface⟩ w).2.2).2.2.env).1) := by
  refine ⟨⟨?_, rfl⟩, ⟨?_, rfl⟩, ⟨?_, rfl⟩⟩
  · rw [issued_of_trace w _ _ (service_trace E name w)]
    simp [Event.isMethod]
  · rw [issued_of_trace w _ _ (interface_trace E service name w)]
    simp [Event.isMethod]
  · rw [issued_of_trace w _ _ (method_trace E service interface name w)]
    simp [Event.isMethod]

/-- Witness of `lookup_status_verbatim`: on the boundary that answers every lookup
with `-1`, each resolver issues one Method call and returns `-1`. -/
theorem lookup_status_verbatim_witness :
    (issued start (_syscall_service (scripted absent) 1 start).2).filter Event.isMethod =
      [Event.syscall SYSCALL_METHOD (Payload.method ⟨0, 1, 0⟩) (-1)] ∧
    (_syscall_service (scripted absent) 1 start).1 = -1 ∧
    (_syscall_interface (scripted absent) 4 1 start).1 = -1 ∧
    (_syscall_method (scripted absent) 4 2 1 start).1 = -1 ∧
    (_syscall_service (scripted absent) 1 start).1 =
      ((scripted absent).sys_method ⟨0, 1, 0⟩
        (_syscall (scripted absent) SYSCALL_PUSH
          ⟨SYSCALL_PARAM_ARRAY, strlen (scripted absent) start 1, 1⟩ start).2.2.env).1 :=
  ⟨by decide, by decide, by decide, by decide,
   (lookup_status_verbatim (scripted absent) 4 2 1 start).1.2⟩

/-! ## The codec on an arbitrary boundary -/

/-- C12: for every string, on every boundary, `_syscall_push_string(str)` issues
exactly one call, a `SYSCALL_PUSH` whose parameter has tag Array, buffer `str`
and size `strlen(str)`, and returns the status of that call unchanged, so it
returns a negative value exactly when the call does. `strlen(str)` is the number
of bytes before the terminator (the terminator is not counted), and `0` for the
empty string. -/
theorem push_string_encoding {σ : Type} (E : Env σ) (str : Nat) (w : World σ) :
    issued w (_syscall_push_string E str w).2 =
      [Event.syscall SYSCALL_PUSH
        (Payload.param ⟨SYSCALL_PARAM_ARRAY, strlen E w str, str⟩)
        (_syscall_push_string E str w).1] ∧
    (_syscall_push_string E str w).1 =
      (E.sys_param SYSCALL_PUSH ⟨SYSCALL_PARAM_ARRAY, strlen E w str, str⟩ w.env).1 ∧
    ((_syscall_push_string E str w).1 < 0 ↔
      (E.sys_param SYSCALL_PUSH ⟨SYSCALL_PARAM_ARRAY, strlen E w str, str⟩ w.env).1 < 0) ∧
    (∀ s rest : List Nat, E.load w.env str = s ++ 0 :: rest → (∀ b ∈ s, b ≠ 0) →
      strlen E w str = s.length) ∧
    (∀ rest : List Nat, E.load w.env str = 0 :: rest → strlen E w str = 0) := by
  refine ⟨issued_of_trace _ _ _ rfl, rfl, Iff.rfl,
    fun s rest hmem hs => strlen_cstring E w str s rest hmem hs, fun rest hmem => ?_⟩
  exact strlen_cstring E w str [] rest hmem (fun b hb => absurd hb (List.not_mem_nil b))

/-- Witness of `push_string_encoding`: the string `"foo"` on a boundary whose Push
fails with `-1`. -/
theorem push_string_encoding_witness :
    issued start (_syscall_push_string (scripted push_fails) 1 start).2 =
      [Event.syscall SYSCALL_PUSH (Payload.param ⟨SYSCALL_PARAM_ARRAY, 3, 1⟩) (-1)] ∧
    (_syscall_push_string (scripted push_fails) 1 start).1 = -1 ∧
    strlen (scripted push_fails) start 1 = [102, 111, 111].length :=
  ⟨by decide, by decide,
   (push_string_encoding (scripted push_fails) 1 start).2.2.2.1 [102, 111, 111] []
     (by decide) (by decide)⟩

/-- C13, the code at the failing inputs: with `*str` holding the non-`NULL`
pointer 9, `_syscall_pop_string` fails with `-4` on a boundary whose Peek fails,
and with `-1` on a boundary whose Peek reports a primitive; both times it issues
the Peek alone and `*str` still holds 9 afterwards, not `NULL`. -/
theorem pop_string_failure_keeps_str :
    (_syscall_pop_string (scripted peek_fails) 9 start).1 = -4 ∧
    (_syscall_pop_string (scripted peek_fails) 9 start).2.1 = 9 ∧
    issued start (_syscall_pop_string (scripted peek_fails) 9 start).2.2 =
      [Event.syscall SYSCALL_PEEK (Payload.param ⟨SYSCALL_PARAM_ARRAY, 0, 0⟩) (-4)] ∧
    (_syscall_pop_string (scripted primitive_pop_fails) 9 start).1 = -1 ∧
    (_syscall_pop_string (scripted primitive_pop_fails) 9 start).2.1 = 9 ∧
    issued start (_syscall_pop_string (scripted primitive_pop_fails) 9 start).2.2 =
      [Event.syscall SYSCALL_PEEK (Payload.param ⟨SYSCALL_PARAM_ARRAY, 0, 0⟩) 0] := by
  decide

/-- C14: on every boundary whose Peek succeeds, when the Peek reports tag Array
`_syscall_pop_int` returns `-1`, issues the Peek and no Pop, leaves the boundary
in the state the Peek left it, and leaves `*value` unchanged; when the Peek
reports Primitive it issues exactly one Pop after the Peek. On the loop-back
boundary with an array at the head of the queue the state, queue included, is
unchanged. -/
theorem pop_int_tag_check {σ : Type} (E : Env σ) (value : Int) (w : World σ)
    (hpeek : 0 ≤ (peeked_int E w).1) :
    ((peeked_int E w).2.1.type = SYSCALL_PARAM_ARRAY →
      (_syscall_pop_int E value w).1 = -1 ∧
      (_syscall_pop_int E value w).2.1 = value ∧
      (_syscall_pop_int E value w).2.2.env = (peeked_int E w).2.2 ∧
      issued w (_syscall_pop_int E value w).2.2 =
        [Event.syscall SYSCALL_PEEK (Payload.param ⟨SYSCALL_PARAM_PRIMITIVE, 0, 0⟩)
          (peeked_int E w).1]) ∧
    ((peeked_int E w).2.1.type = SYSCALL_PARAM_PRIMITIVE →
      issued w (_syscall_pop_int E value w).2.2 =
        [Event.syscall SYSCALL_PEEK (Payload.param ⟨SYSCALL_PARAM_PRIMITIVE, 0, 0⟩)
          (peeked_int E w).1,
         Event.syscall SYSCALL_POP (Payload.param (peeked_int E w).2.1)
          (popped_int E w).1]) ∧
    (∀ (lw : World Loopback) (bs : List Nat) (q : List Item),
      lw.env.queue = Item.array bs :: q →
      (_syscall_pop_int loopback value lw).1 = -1 ∧
      (_syscall_pop_int loopback value lw).2.2.env = lw.env) := by
  have hpeek' : ¬ (E.sys_param SYSCALL_PEEK ⟨SYSCALL_PARAM_PRIMITIVE, 0, 0⟩ w.env).1 < 0 :=
    not_lt.mpr hpeek
  refine ⟨fun htag => ?_, fun htag => ?_, fun lw bs q hq => ?_⟩
  · have hne : (E.sys_param SYSCALL_PEEK ⟨SYSCALL_PARAM_PRIMITIVE, 0, 0⟩ w.env).2.1.type
        ≠ SYSCALL_PARAM_PRIMITIVE := by
      simp only [peeked_int] at htag
      rw [htag]
      decide
    rw [pop_int_exits, if_neg hpeek', if_pos hne]
    exact ⟨rfl, rfl, rfl, issued_of_trace _ _ _ rfl⟩
  · have heq : ¬ (E.sys_param SYSCALL_PEEK ⟨SYSCALL_PARAM_PRIMITIVE, 0, 0⟩ w.env).2.1.type
        ≠ SYSCALL_PARAM_PRIMITIVE := not_not.mpr htag
    rw [pop_int_exits, if_neg hpeek', if_neg heq]
    exact issued_of_trace _ _ _ rfl
  · simp [_syscall_pop_int, _syscall, loopback_sys_param, Loopback.sys_param, hq]

/-- Witness of `pop_int_tag_check`: a boundary whose Peek reports an array of 3
bytes. -/
theorem pop_int_tag_check_witness :
    0 ≤ (peeked_int (scripted found) start).1 ∧
    (peeked_int (scripted found) start).2.1.type = SYSCALL_PARAM_ARRAY ∧
    ((_syscall_pop_int (scripted found) 42 start).1 = -1 ∧
      (_syscall_pop_int (scripted found) 42 start).2.1 = 42 ∧
      (_syscall_pop_int (scripted found) 42 start).2.2.env
        = (peeked_int (scripted found) start).2.2 ∧
      issued start (_syscall_pop_int (scripted found) 42 start).2.2 =
        [Event.syscall SYSCALL_PEEK (Payload.param ⟨SYSCALL_PARAM_PRIMITIVE, 0, 0⟩)
          (peeked_int (scripted found) start).1]) :=
  ⟨by decide, by decide,
   (pop_int_tag_check (scripted found) 42 start (by decide)).1 (by decide)⟩

/-- C15: on every boundary whose Peek succeeds and reports tag Array and size
`n`, `_syscall_pop_string` first issues the Peek and an allocation of exactly `n`
bytes; the parameter it then hands to Pop has tag Array, size `n` and the
allocated pointer as buffer; if the allocation succeeds the third call is the
`SYSCALL_POP` with that parameter, and if that Pop succeeds nothing else is
issued, the status of the Pop is returned and `*str` is the allocated buffer. -/
theorem pop_string_exact_size {σ : Type} (E : Env σ) (str : Nat) (w : World σ)
    (hpeek : 0 ≤ (peeked E w).1)
    (htag : (peeked E w).2.1.type = SYSCALL_PARAM_ARRAY) :
    (∃ rest : List Event, issued w (_syscall_pop_string E str w).2.2 =
      Event.syscall SYSCALL_PEEK (Payload.param ⟨SYSCALL_PARAM_ARRAY, 0, 0⟩) (peeked E w).1 ::
      Event.malloc (peeked E w).2.1.size (allocated E w).1 :: rest) ∧
    pop_param E w = ⟨SYSCALL_PARAM_ARRAY, (peeked E w).2.1.size, (allocated E w).1⟩ ∧
    ((allocated E w).1 ≠ 0 →
      ∃ rest : List Event, issued w (_syscall_pop_string E str w).2.2 =
        Event.syscall SYSCALL_PEEK (Payload.param ⟨SYSCALL_PARAM_ARRAY, 0, 0⟩)
          (peeked E w).1 ::
        Event.malloc (peeked E w).2.1.size (allocated E w).1 ::
        Event.syscall SYSCALL_POP (Payload.param (pop_param E w)) (popped_into E w).1 ::
        rest) ∧
    ((allocated E w).1 ≠ 0 → 0 ≤ (popped_into E w).1 →
      (_syscall_pop_string E str w).1 = (popped_into E w).1 ∧
      (_syscall_pop_string E str w).2.1 = (allocated E w).1 ∧
      issued w (_syscall_pop_string E str w).2.2 =
        [Event.syscall SYSCALL_PEEK (Payload.param ⟨SYSCALL_PARAM_ARRAY, 0, 0⟩)
          (peeked E w).1,
         Event.malloc (peeked E w).2.1.size (allocated E w).1,
         Event.syscall SYSCALL_POP (Payload.param (pop_param E w)) (popped_into E w).1]) := by
  have h1 : ¬ (peeked E w).1 < 0 := not_lt.mpr hpeek
  have h2 : ¬ (peeked E w).2.1.type ≠ SYSCALL_PARAM_ARRAY := not_not.mpr htag
  refine ⟨?_, ?_, fun halloc => ?_, fun halloc hpop => ?_⟩
  · rw [pop_string_exits, if_neg h1, if_neg h2]
    split_ifs
    · exact ⟨_, issued_of_trace _ _ _ rfl⟩
    · exact ⟨_, issued_of_trace _ _ _ rfl⟩
    · exact ⟨_, issued_of_trace _ _ _ rfl⟩
  · simp only [pop_param, ← htag]
  · rw [pop_string_exits, if_neg h1, if_neg h2, if_neg halloc]
    split_ifs
    · exact ⟨_, issued_of_trace _ _ _ rfl⟩
    · exact ⟨_, issued_of_trace _ _ _ rfl⟩
  · rw [pop_string_exits, if_neg h1, if_neg h2, if_neg halloc, if_neg (not_lt.mpr hpop)]
    exact ⟨rfl, rfl, issued_of_trace _ _ _ rfl⟩

/-- Witness of `pop_string_exact_size`: a boundary whose Peek reports an array of
3 bytes, whose allocator returns pointer 5 and whose Pop succeeds. -/
theorem pop_string_exact_size_witness :
    0 ≤ (peeked (scripted found) start).1 ∧
    (peeked (scripted found) start).2.1.type = SYSCALL_PARAM_ARRAY ∧
    (allocated (scripted found) start).1 ≠ 0 ∧
    0 ≤ (popped_into (scripted found) start).1 ∧
    ((_syscall_pop_string (scripted found) 9 start).1
        = (popped_into (scripted found) start).1 ∧
      (_syscall_pop_string (scripted found) 9 start).2.1
        = (allocated (scripted found) start).1 ∧
      issued start (_syscall_pop_string (scripted found) 9 start).2.2 =
        [Event.syscall SYSCALL_PEEK (Payload.param ⟨SYSCALL_PARAM_ARRAY, 0, 0⟩)
          (peeked (scripted found) start).1,
         Event.malloc (peeked (scripted found) start).2.1.size
          (allocated (scripted found) start).1,
         Event.syscall SYSCALL_POP (Payload.param (pop_param (scripted found) start))
          (popped_into (scripted found) start).1]) ∧
    pop_param (scripted found) start = ⟨SYSCALL_PARAM_ARRAY, 3, 5⟩ :=
  ⟨by decide, by decide, by decide, by decide,
   (pop_string_exact_size (scripted found) 9 start (by decide) (by decide)).2.2.2
     (by decide) (by decide),
   by decide⟩

/-- C16: on every boundary whose Peek succeeds and reports an array but whose
allocation returns `NULL`, `_syscall_pop_string` returns `-1`, leaves `*str`
`NULL`, and issues the Peek and the failed allocation and nothing else: no Pop
(the boundary stays as the Peek left it, up to what the allocator did) and no
release. -/
theorem pop_string_alloc_failure {σ : Type} (E : Env σ) (str : Nat) (w : World σ)
    (hpeek : 0 ≤ (peeked E w).1)
    (htag : (peeked E w).2.1.type = SYSCALL_PARAM_ARRAY)
    (halloc : (allocated E w).1 = 0) :
    (_syscall_pop_string E str w).1 = -1 ∧
    (_syscall_pop_string E str w).2.1 = 0 ∧
    issued w (_syscall_pop_string E str w).2.2 =
      [Event.syscall SYSCALL_PEEK (Payload.param ⟨SYSCALL_PARAM_ARRAY, 0, 0⟩) (peeked E w).1,
       Event.malloc (peeked E w).2.1.size 0] ∧
    (_syscall_pop_string E str w).2.2.env = (allocated E w).2 := by
  rw [pop_string_exits, if_neg (not_lt.mpr hpeek), if_neg (not_not.mpr htag), if_pos halloc]
  refine ⟨rfl, halloc, ?_, rfl⟩
  rw [issued_of_trace _ _ _ rfl, halloc]

/-- Witness of `pop_string_alloc_failure`: a boundary whose Peek reports an array
of 3 bytes and whose allocator fails, with `*str` holding 9 before the call. -/
theorem pop_string_alloc_failure_witness :
    0 ≤ (peeked (scripted alloc_fails) start).1 ∧
    (peeked (scripted alloc_fails) start).2.1.type = SYSCALL_PARAM_ARRAY ∧
    (allocated (scripted alloc_fails) start).1 = 0 ∧
    ((_syscall_pop_string (scripted alloc_fails) 9 start).1 = -1 ∧
    (_syscall_pop_string (scripted alloc_fails) 9 start).2.1 = 0 ∧
    issued start (_syscall_pop_string (scripted alloc_fails) 9 start).2.2 =
      [Event.syscall SYSCALL_PEEK (Payload.param ⟨SYSCALL_PARAM_ARRAY, 0, 0⟩)
        (peeked (scripted alloc_fails) start).1,
       Event.malloc (peeked (scripted alloc_fails) start).2.1.size 0] ∧
    (_syscall_pop_string (scripted alloc_fails) 9 start).2.2.env
      = (allocated (scripted alloc_fails) start).2) :=
  ⟨by decide, by decide, by decide,
   pop_string_alloc_failure (scripted alloc_fails) 9 start (by decide) (by decide)
     (by decide)⟩

/-- C18: on every boundary, when the Peek of `_syscall_pop_int` succeeds and
reports Primitive, `_syscall_pop_int` returns the status of its Pop and stores in
`*value` the value slot of the parameter as the Pop left it, also when that
status is negative; when the Peek fails, or succeeds with another tag, `*value`
is left as it was. -/
theorem pop_int_output {σ : Type} (E : Env σ) (value : Int) (w : World σ) :
    (0 ≤ (peeked_int E w).1 → (peeked_int E w).2.1.type = SYSCALL_PARAM_PRIMITIVE →
      (_syscall_pop_int E value w).1 = (popped_int E w).1 ∧
      (_syscall_pop_int E value w).2.1 = to_int64 (popped_int E w).2.1.value) ∧
    (0 ≤ (peeked_int E w).1 → (peeked_int E w).2.1.type = SYSCALL_PARAM_PRIMITIVE →
      (popped_int E w).1 < 0 →
      (_syscall_pop_int E value w).1 < 0 ∧
      (_syscall_pop_int E value w).2.1 = to_int64 (popped_int E w).2.1.value) ∧
    ((peeked_int E w).1 < 0 → (_syscall_pop_int E value w).2.1 = value) ∧
    (0 ≤ (peeked_int E w).1 → (peeked_int E w).2.1.type ≠ SYSCALL_PARAM_PRIMITIVE →
      (_syscall_pop_int E value w).2.1 = value) := by
  have hok : 0 ≤ (peeked_int E w).1 →
      (peeked_int E w).2.1.type = SYSCALL_PARAM_PRIMITIVE →
      (_syscall_pop_int E value w).1 = (popped_int E w).1 ∧
      (_syscall_pop_int E value w).2.1 = to_int64 (popped_int E w).2.1.value := by
    intro h1 h2
    have h1' : ¬ (E.sys_param SYSCALL_PEEK ⟨SYSCALL_PARAM_PRIMITIVE, 0, 0⟩ w.env).1 < 0 :=
      not_lt.mpr h1
    have h2' : ¬ (E.sys_param SYSCALL_PEEK ⟨SYSCALL_PARAM_PRIMITIVE, 0, 0⟩ w.env).2.1.type
        ≠ SYSCALL_PARAM_PRIMITIVE := not_not.mpr h2
    rw [pop_int_exits, if_neg h1', if_neg h2']
    exact ⟨rfl, rfl⟩
  refine ⟨hok, fun h1 h2 h3 => ?_, fun h1 => ?_, fun h1 h2 => ?_⟩
  · obtain ⟨hr, hv⟩ := hok h1 h2
    exact ⟨by rw [hr]; exact h3, hv⟩
  · have h1' : (E.sys_param SYSCALL_PEEK ⟨SYSCALL_PARAM_PRIMITIVE, 0, 0⟩ w.env).1 < 0 := h1
    rw [pop_int_exits, if_pos h1']
  · have h1' : ¬ (E.sys_param SYSCALL_PEEK ⟨SYSCALL_PARAM_PRIMITIVE, 0, 0⟩ w.env).1 < 0 :=
      not_lt.mpr h1
    have h2' : (E.sys_param SYSCALL_PEEK ⟨SYSCALL_PARAM_PRIMITIVE, 0, 0⟩ w.env).2.1.type
        ≠ SYSCALL_PARAM_PRIMITIVE := h2
    rw [pop_int_exits, if_neg h1', if_pos h2']

/-- Witness of `pop_int_output`: a boundary whose Peek reports a primitive and
whose Pop stores 99 and then fails with `-3`; `*value` held 42 and holds 99
afterwards. -/
theorem pop_int_output_witness :
    0 ≤ (peeked_int half_pop start).1 ∧
    (peeked_int half_pop start).2.1.type = SYSCALL_PARAM_PRIMITIVE ∧
    (popped_int half_pop start).1 < 0 ∧
    ((_syscall_pop_int half_pop 42 start).1 < 0 ∧
      (_syscall_pop_int half_pop 42 start).2.1
        = to_int64 (popped_int half_pop start).2.1.value) ∧
    (_syscall_pop_int half_pop 42 start).1 = -3 ∧
    (_syscall_pop_int half_pop 42 start).2.1 = 99 :=
  ⟨by decide, by decide, by decide,
   (pop_int_output half_pop 42 start).2.1 (by decide) (by decide) (by decide),
   by decide, by decide⟩

/-- C19: on every boundary, when the Peek of `_syscall_pop_string` returns a
negative status the function returns that status, leaves `*str` as it was and
issues the Peek alone (no allocation, no Pop), the boundary staying as the Peek
left it; likewise `_syscall_pop_int` and `*value` when its Peek returns a
negative status. -/
theorem peek_failure_exit {σ : Type} (E : Env σ) (str : Nat) (value : Int) (w : World σ) :
    ((peeked E w).1 < 0 →
      (_syscall_pop_string E str w).1 = (peeked E w).1 ∧
      (_syscall_pop_string E str w).2.1 = str ∧
      (_syscall_pop_string E str w).2.2.env = (peeked E w).2.2 ∧
      issued w (_syscall_pop_string E str w).2.2 =
        [Event.syscall SYSCALL_PEEK (Payload.param ⟨SYSCALL_PARAM_ARRAY, 0, 0⟩)
          (peeked E w).1]) ∧
    ((peeked_int E w).1 < 0 →
      (_syscall_pop_int E value w).1 = (peeked_int E w).1 ∧
      (_syscall_pop_int E value w).2.1 = value ∧
      (_syscall_pop_int E value w).2.2.env = (peeked_int E w).2.2 ∧
      issued w (_syscall_pop_int E value w).2.2 =
        [Event.syscall SYSCALL_PEEK (Payload.param ⟨SYSCALL_PARAM_PRIMITIVE, 0, 0⟩)
          (peeked_int E w).1]) := by
  refine ⟨fun h => ?_, fun h => ?_⟩
  · rw [pop_string_exits, if_pos h]
    exact ⟨rfl, rfl, rfl, issued_of_trace _ _ _ rfl⟩
  · have h' : (E.sys_param SYSCALL_PEEK ⟨SYSCALL_PARAM_PRIMITIVE, 0, 0⟩ w.env).1 < 0 := h
    rw [pop_int_exits, if_pos h']
    exact ⟨rfl, rfl, rfl, issued_of_trace _ _ _ rfl⟩

/-- Witness of `peek_failure_exit`: a boundary whose Peek fails with `-4`, with
`*str` holding 8 and `*value` holding 42 before the calls. -/
theorem peek_failure_exit_witness :
    (peeked (scripted peek_fails) start).1 < 0 ∧
    ((_syscall_pop_string (scripted peek_fails) 8 start).1
        = (peeked (scripted peek_fails) start).1 ∧
      (_syscall_pop_string (scripted peek_fails) 8 start).2.1 = 8 ∧
      (_syscall_pop_string (scripted peek_fails) 8 start).2.2.env
        = (peeked (scripted peek_fails) start).2.2 ∧
      issued start (_syscall_pop_string (scripted peek_fails) 8 start).2.2 =
        [Event.syscall SYSCALL_PEEK (Payload.param ⟨SYSCALL_PARAM_ARRAY, 0, 0⟩)
          (peeked (scripted peek_fails) start).1]) ∧
    (peeked_int (scripted peek_fails) start).1 < 0 ∧
    ((_syscall_pop_int (scripted peek_fails) 42 start).1
        = (peeked_int (scripted peek_fails) start).1 ∧
      (_syscall_pop_int (scripted peek_fails) 42 start).2.1 = 42 ∧
      (_syscall_pop_int (scripted peek_fails) 42 start).2.2.env
        = (peeked_int (scripted peek_fails) start).2.2 ∧
      issued start (_syscall_pop_int (scripted peek_fails) 42 start).2.2 =
        [Event.syscall SYSCALL_PEEK (Payload.param ⟨SYSCALL_PARAM_PRIMITIVE, 0, 0⟩)
          (peeked_int (scripted peek_fails) start).1]) :=
  ⟨by decide, (peek_failure_exit (scripted peek_fails) 8 42 start).1 (by decide),
   by decide, (peek_failure_exit (scripted peek_fails) 8 42 start).2 (by decide)⟩

/-! ## The sentinel of the generated accessors -/

/-- The order of the nested calls can be seen: on a boundary whose first service
lookup returns `-1` and whose later ones return 3, a first call of the method
accessor looks the interface up under service 3 and the method under `-1` when
the service accessor runs first, and the other way round when the interface
accessor runs first. -/
theorem argument_order_observable :
    issued late_start (bus_method late_service ArgOrder.service_first 1 1 1
        Statics.init late_start).2.2 =
      [Event.syscall SYSCALL_PUSH (Payload.param ⟨SYSCALL_PARAM_ARRAY, 0, 1⟩) 0,
       Event.syscall SYSCALL_METHOD (Payload.method ⟨0, 1, 0⟩) (-1),
       Event.syscall SYSCALL_PUSH (Payload.param ⟨SYSCALL_PARAM_ARRAY, 0, 1⟩) 0,
       Event.syscall SYSCALL_METHOD (Payload.method ⟨0, 1, 0⟩) 3,
       Event.syscall SYSCALL_PUSH (Payload.param ⟨SYSCALL_PARAM_ARRAY, 0, 1⟩) 0,
       Event.syscall SYSCALL_METHOD (Payload.method ⟨3, 0, 0⟩) 5,
       Event.syscall SYSCALL_PUSH (Payload.param ⟨SYSCALL_PARAM_PRIMITIVE, 0, 5⟩) 0,
       Event.syscall SYSCALL_PUSH (Payload.param ⟨SYSCALL_PARAM_ARRAY, 0, 1⟩) 0,
       Event.syscall SYSCALL_METHOD (Payload.method ⟨18446744073709551615, 0, 1⟩) 5] ∧
    issued late_start (bus_method late_service ArgOrder.interface_first 1 1 1
        Statics.init late_start).2.2 =
      [Event.syscall SYSCALL_PUSH (Payload.param ⟨SYSCALL_PARAM_ARRAY, 0, 1⟩) 0,
       Event.syscall SYSCALL_METHOD (Payload.method ⟨0, 1, 0⟩) (-1),
       Event.syscall SYSCALL_PUSH (Payload.param ⟨SYSCALL_PARAM_ARRAY, 0, 1⟩) 0,
       Event.syscall SYSCALL_METHOD (Payload.method ⟨18446744073709551615, 0, 0⟩) 5,
       Event.syscall SYSCALL_PUSH (Payload.param ⟨SYSCALL_PARAM_ARRAY, 0, 1⟩) 0,
       Event.syscall SYSCALL_METHOD (Payload.method ⟨0, 1, 0⟩) 3,
       Event.syscall SYSCALL_PUSH (Payload.param ⟨SYSCALL_PARAM_PRIMITIVE, 0, 5⟩) 0,
       Event.syscall SYSCALL_PUSH (Payload.param ⟨SYSCALL_PARAM_ARRAY, 0, 1⟩) 0,
       Event.syscall SYSCALL_METHOD (Payload.method ⟨3, 0, 1⟩) 5] := by
  decide

end ErikBus
